import Mathlib

/-!
Verification of the ClipMontage client-side highlight pipeline.

Shallow embedding of the JavaScript sources:
* data models (`TimeRange`, `QualityScore`, `FrameAnalysis`, `Clip`);
* `HighlightDetector` (excitement scoring, multi-event detection, clutch
  detection, momentum shifts, highlight seeding, overlap merging);
* `CompositionPlanner` (scoring, length adjustment, trimming, pacing, hook);
* `CreativeDirector.direct`;
* the orchestrator's clamping step (`ProcessingPipeline.run`);
* `HuggingFaceClient.analyzeFramesBatch` and `_sendWithFallback`.

Times, scores and confidences are modelled as rationals: every arithmetic
operation these code paths perform (+, -, *, /, min, max, comparisons) is
exact on the dyadic constants involved, so `ℚ` is a faithful model of the
JS number arithmetic exercised here.  JS's stable `Array.prototype.sort`
is modelled by Mathlib's stable `List.insertionSort` (all comparators used
by the source are total preorders, for which any stable sort has a unique
result).  `crypto.randomUUID()` (used for `Clip.id`) is modelled by an
explicit id supply threaded in creation order.
-/

namespace ClipMontage

/-! ### Data models (src/unnamed/part_003) -/

/-- A time interval; field names follow the source. -/
structure TimeRange where
  startSeconds : ℚ
  endSeconds : ℚ
deriving DecidableEq, Repr

/-- `new TimeRange(s, e)` clamps the start at 0 (part_003 lines 4-10).
The JS constructor throws when `end ≤ max 0 start`; the predicate
`TimeRange.CtorOk` expresses that a construction does not throw, and the
validity theorems below show the pipeline only constructs such ranges. -/
def TimeRange.make (s e : ℚ) : TimeRange := ⟨max 0 s, e⟩

/-- The JS `TimeRange` constructor throws unless this holds. -/
def TimeRange.CtorOk (s e : ℚ) : Prop := max 0 s < e

def TimeRange.duration (r : TimeRange) : ℚ := r.endSeconds - r.startSeconds

def TimeRange.midpoint (r : TimeRange) : ℚ := (r.startSeconds + r.endSeconds) / 2

/-- A clip quality score; the constructor clamps into `[0, 100]`
(part_003 lines 39-43).  The optional breakdown is never read by the
code paths under verification and is omitted. -/
structure QualityScore where
  value : ℚ
deriving DecidableEq, Repr

def QualityScore.make (v : ℚ) : QualityScore := ⟨max 0 (min 100 v)⟩

/-- `FrameAnalysis.metadata`; the source stores a free-form object whose
only read key is `error` (carried by sentinel analyses). -/
structure FrameMeta where
  error : Option String := none
deriving DecidableEq, Repr

/-- One frame's analysis; defaults follow the JS constructor
(part_003 lines 75-93). -/
structure FrameAnalysis where
  framePath : String := ""
  timestamp : ℚ := 0
  killLog : Bool := false
  matchStatus : String := "unknown"
  actionIntensity : String := "low"
  enemyVisible : Bool := false
  sceneDescription : String := ""
  confidence : ℚ := 0
  excitementScore : ℚ := 0
  modelUsed : String := ""
  uiElements : String := ""
  metadata : FrameMeta := {}
  killCount : Nat := 0
  enemyCount : Nat := 0
  visualQuality : String := "normal"
deriving DecidableEq, Repr

/-- `Clip.metadata`; the only key the source ever sets is `isHook`. -/
structure ClipMeta where
  isHook : Bool := false
deriving DecidableEq, Repr

/-- A candidate highlight clip; defaults follow the JS constructor
(part_003 lines 130-141).  `id` is drawn from `crypto.randomUUID()` in
the source; here ids are naturals drawn from an explicit supply. -/
structure Clip where
  timeRange : TimeRange
  reason : String := ""
  score : QualityScore := ⟨0⟩
  clipType : String := ""
  label : String := ""
  priority : Int := 0
  actionIntensity : String := "low"
  id : Nat := 0
  metadata : ClipMeta := {}
deriving DecidableEq, Repr

def Clip.duration (c : Clip) : ℚ := c.timeRange.duration

def Clip.start (c : Clip) : ℚ := c.timeRange.startSeconds

def Clip.stop (c : Clip) : ℚ := c.timeRange.endSeconds

def Clip.withAdjustedRange (c : Clip) (r : TimeRange) : Clip := { c with timeRange := r }

/-! ### HighlightDetector: excitement scoring (part_001 lines 917-954) -/

/-- `intensityMap[x] || 0` from `analyzeExcitementLevels`. -/
def intensityExcitement (s : String) : ℚ :=
  if s = "very_high" then 25
  else if s = "high" then 18
  else if s = "medium" then 10
  else 0

/-- `statusMap[x] || 0` from `analyzeExcitementLevels`. -/
def statusExcitement (s : String) : ℚ :=
  if s = "victory" then 10
  else if s = "clutch" then 20
  else if s = "overtime" then 12
  else if s = "defeat" then -5
  else 0

/-- The excitement accumulation of `analyzeExcitementLevels` for one frame. -/
def excitementOf (a : FrameAnalysis) : ℚ :=
  let e1 : ℚ :=
    if a.killLog then
      25 + (if 3 ≤ a.killCount then 15 else if 2 ≤ a.killCount then 8 else 0)
    else 0
  let e2 := e1 + intensityExcitement a.actionIntensity
  let e3 := e2 + statusExcitement a.matchStatus
  let e4 := e3 + (if a.enemyVisible then 10 + (if 3 ≤ a.enemyCount then (5 : ℚ) else 0) else 0)
  if 0 < a.confidence then e4 * (1/2 + 1/2 * a.confidence) else e4

/-- `HighlightDetector.analyzeExcitementLevels`: map each analysis to a copy
with `excitementScore` written back. -/
def analyzeExcitementLevels (analyses : List FrameAnalysis) : List FrameAnalysis :=
  analyses.map fun a => { a with excitementScore := excitementOf a }

/-! Spec-side restatement of the Phase-1 scoring, written from the claim's
words (sum of four independent terms, multiplied iff confidence is
positive); compared against the source translation `excitementOf`. -/

/-- Spec reading: the kill contribution. -/
def specKillTerm (a : FrameAnalysis) : ℚ :=
  if a.killLog then 25 + (if 3 ≤ a.killCount then 15 else if 2 ≤ a.killCount then 8 else 0)
  else 0

/-- Spec reading: the enemy contribution. -/
def specEnemyTerm (a : FrameAnalysis) : ℚ :=
  if a.enemyVisible then 10 + (if 3 ≤ a.enemyCount then 5 else 0) else 0

/-- Spec reading: pre-multiplication sum of the four contribution terms. -/
def specPreSum (a : FrameAnalysis) : ℚ :=
  specKillTerm a + intensityExcitement a.actionIntensity
    + statusExcitement a.matchStatus + specEnemyTerm a

/-- Spec reading: multiply by `0.5 + 0.5·confidence` iff `confidence > 0`. -/
def specExcitement (a : FrameAnalysis) : ℚ :=
  if 0 < a.confidence then specPreSum a * (1/2 + 1/2 * a.confidence) else specPreSum a

/-- The S1 scenario input. -/
def s1Analysis : FrameAnalysis :=
  { timestamp := 0, killLog := true, killCount := 3, actionIntensity := "high",
    matchStatus := "clutch", enemyVisible := true, enemyCount := 3, confidence := 1 }

/-! ### HighlightDetector: event extraction (part_001 lines 956-1041) -/

/-- A multi-kill event from `detectMultiEvents`. -/
structure MultiEvent where
  type : String
  timestamp : ℚ
  killCount : Nat
  endTimestamp : ℚ
deriving DecidableEq, Repr

/-- `HighlightDetector._classifyMultiEvent`. -/
def classifyMultiEvent (count : Nat) : String :=
  if 5 ≤ count then "ACE"
  else if count = 4 then "QUAD KILL"
  else if count = 3 then "TRIPLE KILL"
  else if count = 2 then "DOUBLE KILL"
  else "KILL"

/-- The window-sweep loop of `detectMultiEvents`: take the run of timestamps
within `timeWindow` of the current window start, emit an event when the run
holds at least two kills, continue after the run (`i = j`). -/
def detectMultiLoop (timeWindow : ℚ) : List ℚ → List MultiEvent
  | [] => []
  | t :: rest =>
    let inWin := rest.takeWhile fun u => decide (u - t ≤ timeWindow)
    let restOut := rest.dropWhile fun u => decide (u - t ≤ timeWindow)
    let count := 1 + inWin.length
    (if 2 ≤ count then
      [{ type := classifyMultiEvent count, timestamp := t, killCount := count,
         endTimestamp := inWin.getLastD t }]
     else []) ++ detectMultiLoop timeWindow restOut
termination_by l => l.length
decreasing_by
  simp only [List.length_cons]
  exact Nat.lt_succ_of_le (List.dropWhile_sublist _).length_le

/-- `HighlightDetector.detectMultiEvents`: sorted kill-log timestamps swept
with a 10-second window. -/
def detectMultiEvents (analyses : List FrameAnalysis) (timeWindow : ℚ) : List MultiEvent :=
  let killTs := ((analyses.filter fun a => a.killLog).map fun a => a.timestamp).insertionSort (· ≤ ·)
  detectMultiLoop timeWindow killTs

/-- A clutch moment from `detectClutchMoments`. -/
structure ClutchMoment where
  timestamp : ℚ
  type : String
  actionIntensity : String
deriving DecidableEq, Repr

/-- `HighlightDetector.detectClutchMoments`. -/
def detectClutchMoments (analyses : List FrameAnalysis) : List ClutchMoment :=
  (analyses.filter fun a => decide (a.matchStatus = "clutch")).map fun a =>
    { timestamp := a.timestamp, type := "clutch", actionIntensity := a.actionIntensity }

/-- A momentum shift from `analyzeMomentumShifts`. -/
structure MomentumShift where
  timestamp : ℚ
  type : String
  magnitude : ℚ
deriving DecidableEq, Repr

/-- `arr.reduce((s,v) => s+v, 0) / arr.length`. -/
def listAvg (l : List ℚ) : ℚ := l.sum / l.length

/-- `HighlightDetector.analyzeMomentumShifts`: windows of 5 before/5 after
over the non-zero-excitement timeline. -/
def analyzeMomentumShifts (analyses : List FrameAnalysis) : List MomentumShift :=
  let timeline := (analyses.filter fun a => decide (0 < a.excitementScore)).map fun a =>
    (a.timestamp, a.excitementScore)
  if timeline.length < 10 then []
  else
    (List.range (timeline.length - 2 * 5 + 1)).filterMap fun i =>
      let before := ((timeline.drop i).take 5).map Prod.snd
      let after := ((timeline.drop (i + 5)).take 5).map Prod.snd
      let change := listAvg after - listAvg before
      if 10 < |change| then
        some { timestamp := ((timeline.drop (i + 5)).headD (0, 0)).1,
               type := if 0 < change then "momentum_up" else "momentum_down",
               magnitude := |change| }
      else none

/-! ### HighlightDetector: highlight seeding and merging (part_001 lines 1043-1106) -/

/-- The multi-kill seed clip of `suggestHighlights`.  The source computes
`endTs = mk.endTimestamp || mk.timestamp`, falling back when the end
timestamp is the (falsy) number 0. -/
def mkMultiClip (mk : MultiEvent) (gen : Nat) : Clip :=
  let endTs := if mk.endTimestamp = 0 then mk.timestamp else mk.endTimestamp
  { timeRange := TimeRange.make (max 0 (mk.timestamp - 3)) (endTs + 3),
    clipType := "multi_kill", label := mk.type, priority := 10,
    reason := mk.type ++ " (" ++ toString mk.killCount ++ " kills)",
    score := QualityScore.make 90, id := gen }

/-- The clutch seed clip of `suggestHighlights`. -/
def mkClutchClip (cm : ClutchMoment) (gen : Nat) : Clip :=
  { timeRange := TimeRange.make (max 0 (cm.timestamp - 5)) (cm.timestamp + 5),
    clipType := "clutch", label := "CLUTCH", priority := 9, reason := "Clutch moment",
    score := QualityScore.make 80, id := gen }

/-- The high-excitement seed clip of `suggestHighlights`. -/
def mkExciteClip (a : FrameAnalysis) (gen : Nat) : Clip :=
  { timeRange := TimeRange.make (max 0 (a.timestamp - 2)) (a.timestamp + 3),
    clipType := "high_excitement", label := "INTENSE", priority := 7, reason := "High excitement",
    score := QualityScore.make 70, id := gen }

/-- Build clips drawing consecutive ids from the supply, in creation order. -/
def seedWith (f : α → Nat → Clip) : Nat → List α → List Clip
  | _, [] => []
  | gen, x :: rest => f x gen :: seedWith f (gen + 1) rest

/-- The seed-clip list of `suggestHighlights`, in the source's creation
order: multi-kill clips, then clutch clips, then high-excitement clips. -/
def seedClips (gen : Nat) (analyses : List FrameAnalysis) (events : List MultiEvent)
    (clutch : List ClutchMoment) : List Clip :=
  seedWith mkMultiClip gen events
    ++ seedWith mkClutchClip (gen + events.length) clutch
    ++ seedWith mkExciteClip (gen + events.length + clutch.length)
        (analyses.filter fun a => decide (25 ≤ a.excitementScore))

/-- The comparator `(a, b) => b.priority - a.priority` (descending priority). -/
def prioGe (a b : Clip) : Prop := b.priority ≤ a.priority

instance : DecidableRel prioGe := fun a b => inferInstanceAs (Decidable (b.priority ≤ a.priority))

instance : IsTotal Clip prioGe := ⟨fun a b => le_total b.priority a.priority⟩

instance : IsTrans Clip prioGe := ⟨fun _ _ _ h1 h2 => le_trans h2 h1⟩

/-- The comparator `(a, b) => a.start - b.start` (ascending start). -/
def startLe (a b : Clip) : Prop := a.start ≤ b.start

instance : DecidableRel startLe := fun a b => inferInstanceAs (Decidable (a.start ≤ b.start))

instance : IsTotal Clip startLe := ⟨fun a b => le_total a.start b.start⟩

instance : IsTrans Clip startLe := ⟨fun _ _ _ h1 h2 => le_trans h1 h2⟩

/-- The comparator `(a, b) => b.score.value - a.score.value` (descending score). -/
def scoreGe (a b : Clip) : Prop := b.score.value ≤ a.score.value

instance : DecidableRel scoreGe := fun a b => inferInstanceAs (Decidable (b.score.value ≤ a.score.value))

instance : IsTotal Clip scoreGe := ⟨fun a b => le_total b.score.value a.score.value⟩

instance : IsTrans Clip scoreGe := ⟨fun _ _ _ h1 h2 => le_trans h2 h1⟩

/-- One merge of `mergeOverlappingClips`: the higher-priority clip survives
(the previous one on ties) and takes the union range. -/
def mergeStep (last current : Clip) : Clip :=
  let newRange := TimeRange.make (min last.start current.start) (max last.stop current.stop)
  (if current.priority ≤ last.priority then last else current).withAdjustedRange newRange

/-- The fold of `mergeOverlappingClips` over the start-sorted list. -/
def mergeLoop (acc : Clip) : List Clip → List Clip
  | [] => [acc]
  | c :: cs =>
    if c.start ≤ acc.stop then mergeLoop (mergeStep acc c) cs
    else acc :: mergeLoop c cs

/-- `HighlightDetector.mergeOverlappingClips` (part_001 lines 1086-1106). -/
def mergeOverlappingClips (clips : List Clip) : List Clip :=
  match clips.insertionSort startLe with
  | [] => []
  | c :: cs => mergeLoop c cs

/-- `HighlightDetector.suggestHighlights`: seed, sort by priority descending,
merge overlaps.  Also returns the advanced id supply. -/
def suggestHighlights (gen : Nat) (analyses : List FrameAnalysis) (events : List MultiEvent)
    (clutch : List ClutchMoment) : List Clip × Nat :=
  let seeds := seedClips gen analyses events clutch
  (mergeOverlappingClips (seeds.insertionSort prioGe),
   gen + events.length + clutch.length
     + (analyses.filter fun a => decide (25 ≤ a.excitementScore)).length)

/-! ### Math helpers (part_001 lines 1407-1419) -/

/-- `_variance`: sample variance, 0 for fewer than two values. -/
def listVariance (l : List ℚ) : ℚ :=
  if l.length < 2 then 0
  else
    let mean := l.sum / l.length
    (l.map fun v => (v - mean) ^ 2).sum / ((l.length : ℚ) - 1)

/-- `Math.max(...l)` over a non-empty list (callers guard emptiness). -/
def listMax : List ℚ → ℚ
  | [] => 0
  | x :: xs => xs.foldl max x

/-! ### HighlightDetector.analyzeVariety (part_001 lines 1108-1122) -/

structure VarietyAnalysis where
  varietyScore : ℚ
  uniqueTypes : Nat
  durationVariance : ℚ
  issues : List String
deriving DecidableEq, Repr

/-- `HighlightDetector.analyzeVariety`.  The source's empty-clip object
carries only `varietyScore` and `issues`; the remaining fields are modelled
as 0. -/
def analyzeVariety (clips : List Clip) : VarietyAnalysis :=
  if clips.isEmpty then
    { varietyScore := 0, uniqueTypes := 0, durationVariance := 0, issues := ["no_clips"] }
  else
    let types := clips.map fun c => if c.clipType = "" then "unknown" else c.clipType
    let uniqueTypes := types.dedup.length
    let durations := clips.map Clip.duration
    let durVariance := if 1 < durations.length then listVariance durations else 0
    let varietyScore := min 100 ((uniqueTypes : ℚ) * 20 + min 30 (durVariance * 5))
    { varietyScore := varietyScore, uniqueTypes := uniqueTypes, durationVariance := durVariance,
      issues := (if uniqueTypes < 2 then ["low_type_variety"] else [])
        ++ (if durVariance < 2 then ["uniform_clip_lengths"] else []) }

/-! ### CompositionPlanner (part_001 lines 1128-1280) -/

structure CompositionPlanner where
  targetDuration : ℚ := 180
  minClipLength : ℚ := 3
  maxClipLength : ℚ := 15
  optimalPace : ℚ := 5
deriving DecidableEq, Repr

/-- The planner `CreativeDirector` builds from its default configuration
(`targetDuration 180`, `minClipLength 3`, `maxClipLength 15`,
`optimalPace = pacingVariation 0.5 × 10 = 5`). -/
def defaultPlanner : CompositionPlanner := {}

/-- The closest-analysis scan of `scoreClips` (first strictly-closer wins). -/
def closestAnalysis (midTime : ℚ) (analyses : List FrameAnalysis) : Option FrameAnalysis :=
  analyses.foldl (fun acc a =>
    match acc with
    | none => some a
    | some b => if |a.timestamp - midTime| < |b.timestamp - midTime| then some a else some b) none

/-- `intensityScores[x] || 0` from `scoreClips`. -/
def intensityCompositionScore (s : String) : ℚ :=
  if s = "very_high" then 8
  else if s = "high" then 6
  else if s = "medium" then 4
  else if s = "low" then 2
  else 0

/-- `CompositionPlanner.scoreClips` for one clip: recompute the score from
the analysis nearest the clip midpoint; inherit its action intensity. -/
def scoreClipAgainst (p : CompositionPlanner) (analyses : List FrameAnalysis) (clip : Clip) : Clip :=
  let midTime := clip.timeRange.midpoint
  let closest := closestAnalysis midTime analyses
  let base : ℚ :=
    match closest with
    | none => 0
    | some cl =>
      (if cl.killLog then 10 else 0) + intensityCompositionScore cl.actionIntensity
        + (if cl.matchStatus = "victory" then 5
           else if cl.matchStatus = "clutch" then 7 else 0)
  let ai := match closest with
    | none => clip.actionIntensity
    | some cl => cl.actionIntensity
  let scoreV := base
    + (if p.maxClipLength < clip.duration then -2
       else if clip.duration < p.minClipLength then -1 else 0)
  { clip with score := QualityScore.make (max 0 scoreV), actionIntensity := ai }

def scoreClips (p : CompositionPlanner) (clips : List Clip) (analyses : List FrameAnalysis) :
    List Clip :=
  clips.map (scoreClipAgainst p analyses)

/-- `CompositionPlanner.adjustClipLengths` for one clip: centred truncation
above `maxClipLength`, symmetric extension below `minClipLength`. -/
def adjustClipOne (p : CompositionPlanner) (clip : Clip) : Clip :=
  let duration := clip.duration
  if p.maxClipLength < duration then
    let center := clip.timeRange.midpoint
    let half := p.maxClipLength / 2
    clip.withAdjustedRange
      (TimeRange.make (max clip.start (center - half)) (min clip.stop (center + half)))
  else if duration < p.minClipLength then
    let ext := (p.minClipLength - duration) / 2
    clip.withAdjustedRange (TimeRange.make (max 0 (clip.start - ext)) (clip.stop + ext))
  else clip

def adjustClipLengths (p : CompositionPlanner) (clips : List Clip) : List Clip :=
  clips.map (adjustClipOne p)

/-- The admission loop of `trimToTargetDuration`: admit whole clips while
they fit; the first overflowing clip is admitted as a head-slice of the
remaining budget iff that remainder is at least `minClipLength`; then stop. -/
def trimLoop (p : CompositionPlanner) (accumulated : ℚ) : List Clip → List Clip
  | [] => []
  | c :: cs =>
    if accumulated + c.duration ≤ p.targetDuration then
      c :: trimLoop p (accumulated + c.duration) cs
    else
      let remaining := p.targetDuration - accumulated
      if p.minClipLength ≤ remaining then
        [c.withAdjustedRange (TimeRange.make c.start (c.start + remaining))]
      else []

/-- `CompositionPlanner.trimToTargetDuration` (part_001 lines 1203-1225). -/
def trimToTargetDuration (p : CompositionPlanner) (clips : List Clip) : List Clip :=
  if clips.isEmpty then clips
  else if (clips.map Clip.duration).sum ≤ p.targetDuration then clips
  else trimLoop p 0 clips

/-- The `while (hi < high.length || mi < medium.length)` loop of
`optimizePacing`: each iteration pushes one medium then one high clip,
when available. -/
def pacingLoop : List Clip → List Clip → List Clip
  | [], [] => []
  | [], h :: hs => h :: pacingLoop [] hs
  | m :: ms, [] => m :: pacingLoop ms []
  | m :: ms, h :: hs => m :: h :: pacingLoop ms hs

/-- `CompositionPlanner.optimizePacing` (part_001 lines 1226-1241). -/
def optimizePacing (clips : List Clip) : List Clip :=
  if clips.length ≤ 2 then clips
  else
    let high := clips.filter fun c =>
      decide (c.actionIntensity = "very_high" ∨ c.actionIntensity = "high")
    let medium := clips.filter fun c => decide (c.actionIntensity = "medium")
    let low := clips.filter fun c => decide (c.actionIntensity = "low")
    (match high with
     | [] => pacingLoop medium []
     | h :: hs => h :: pacingLoop medium hs) ++ low.take 2

/-- The highest-scored clip, via `reduce((a, b) => a.score.value >= b.score.value ? a : b)`
(first maximum wins). -/
def bestByScore (c : Clip) (cs : List Clip) : Clip :=
  cs.foldl (fun a b => if b.score.value ≤ a.score.value then a else b) c

/-- `CompositionPlanner.createHookIntro` (part_001 lines 1244-1256),
drawing the hook's id from the supply. -/
def createHookIntro (gen : Nat) (clips : List Clip) : Option Clip :=
  match clips with
  | [] => none
  | c :: cs =>
    let best := bestByScore c cs
    let mid := best.timeRange.midpoint
    some { timeRange := TimeRange.make (max 0 (mid - 3/2)) (mid + 3/2),
           reason := "hook", score := best.score, clipType := "hook", label := "HOOK",
           id := gen, metadata := { isHook := true } }

structure EngagementCurve where
  avgScore : ℚ
  scoreVariance : ℚ
  peakMoment : Nat
  totalDuration : ℚ
  clipCount : Nat
  pacingScore : ℚ
deriving DecidableEq, Repr

/-- `CompositionPlanner._calculatePacingScore`. -/
def calculatePacingScore (p : CompositionPlanner) (clips : List Clip) : ℚ :=
  if clips.isEmpty then 0
  else
    let durations := clips.map Clip.duration
    let avg := durations.sum / durations.length
    max 0 (100 - |avg - p.optimalPace| * 10)

/-- `CompositionPlanner.analyzeEngagementCurve`; the source's
`{status: 'no_clips'}` object for an empty list is modelled as `none`. -/
def analyzeEngagementCurve (p : CompositionPlanner) (clips : List Clip) :
    Option EngagementCurve :=
  match clips with
  | [] => none
  | _ =>
    let scores := clips.map fun c => c.score.value
    some { avgScore := scores.sum / scores.length,
           scoreVariance := if 1 < scores.length then listVariance scores else 0,
           peakMoment := scores.indexOf (listMax scores),
           totalDuration := (clips.map Clip.duration).sum,
           clipCount := clips.length,
           pacingScore := calculatePacingScore p clips }

/-- `CompositionPlanner.optimizeClips`: score, adjust, sort by score
descending, trim, pace. -/
def optimizeClips (p : CompositionPlanner) (clips : List Clip)
    (analyses : List FrameAnalysis) : List Clip :=
  optimizePacing (trimToTargetDuration p
    ((adjustClipLengths p (scoreClips p clips analyses)).insertionSort scoreGe))

/-! ### ClipScorer.suggestImprovements (part_001 lines 1330-1350) -/

/-- `ClipScorer.suggestImprovements`; its `analyses` parameter is unused in
the source body and omitted here. -/
def suggestImprovements (clips : List Clip) : List String :=
  let totalDuration := (clips.map Clip.duration).sum
  (if 300 < totalDuration then ["Video is too long. Consider trimming to 3-5 minutes."] else [])
    ++ (if 15 < clips.length then ["Too many clips. Focus on the best highlights only."] else [])
    ++ (if totalDuration < 30 then ["Video is very short. Consider including more clips."] else [])
    ++ (if (clips.length : ℚ) * (3/10)
            < ((clips.filter fun c => decide (c.score.value < 30)).length : ℚ) then
          ["Many low-scoring clips detected. Consider raising the quality threshold."] else [])
    ++ (if ((clips.filter fun c => decide (c.clipType ≠ "")).map fun c => c.clipType).dedup.length < 2
            ∧ 3 < clips.length then
          ["Low clip variety. Mix different highlight types for better pacing."] else [])

/-! ### CreativeDirector.direct (part_001 lines 1373-1404) -/

structure DirectorResult where
  clips : List Clip
  hookClip : Option Clip
  engagementCurve : Option EngagementCurve
  varietyAnalysis : VarietyAnalysis
  suggestions : List String
  multiEvents : List MultiEvent
  clutchMoments : List ClutchMoment
  momentumShifts : List MomentumShift
deriving DecidableEq, Repr

/-- The final clip list of `CreativeDirector.direct` (steps 1-3 of the
source: excitement analysis, highlight suggestion, composition). -/
def directClips (analyses : List FrameAnalysis) (gen : Nat) : List Clip :=
  let enhanced := analyzeExcitementLevels analyses
  optimizeClips defaultPlanner
    (suggestHighlights gen enhanced (detectMultiEvents enhanced 10)
      (detectClutchMoments enhanced)).1 enhanced

/-- The id-supply state when `direct` reaches hook creation (all seed
clips have drawn their ids). -/
def directGen (analyses : List FrameAnalysis) (gen : Nat) : Nat :=
  let enhanced := analyzeExcitementLevels analyses
  (suggestHighlights gen enhanced (detectMultiEvents enhanced 10)
    (detectClutchMoments enhanced)).2

/-- `CreativeDirector.direct` with the default configuration.  `gen` is the
state of the ambient `crypto.randomUUID()` supply at entry; ids are drawn
in creation order (seed clips, then the hook). -/
def direct (analyses : List FrameAnalysis) (gen : Nat) : DirectorResult :=
  let enhanced := analyzeExcitementLevels analyses
  { clips := directClips analyses gen,
    hookClip := createHookIntro (directGen analyses gen) (directClips analyses gen),
    engagementCurve := analyzeEngagementCurve defaultPlanner (directClips analyses gen),
    varietyAnalysis := analyzeVariety (directClips analyses gen),
    suggestions := suggestImprovements (directClips analyses gen),
    multiEvents := detectMultiEvents enhanced 10,
    clutchMoments := detectClutchMoments enhanced,
    momentumShifts := analyzeMomentumShifts enhanced }

/-! ### Orchestrator clamping (part_002 lines 103-120) -/

/-- The per-clip clamping of `ProcessingPipeline.run`: intersect with the
media duration, drop when the clamped span is under half a second.  The
hook undergoes the identical computation. -/
def clampClip (videoDuration : ℚ) (c : Clip) : Option Clip :=
  let endClamped := min c.stop videoDuration
  let startClamped := min c.start (endClamped - 1/10)
  if endClamped - startClamped < 1/2 then none
  else some (c.withAdjustedRange (TimeRange.make (max 0 startClamped) endClamped))

def clampClips (videoDuration : ℚ) (clips : List Clip) : List Clip :=
  clips.filterMap (clampClip videoDuration)

def clampHook (videoDuration : ℚ) (hook : Option Clip) : Option Clip :=
  hook.bind (clampClip videoDuration)

/-! ### HuggingFaceClient.analyzeFramesBatch (part_004 lines 53-100) -/

/-- A sampled frame; the image blob is opaque to the batch logic and is
absorbed into the per-frame analysis function. -/
structure Frame where
  timestamp : ℚ
deriving DecidableEq, Repr

/-- The sentinel recorded when one frame's analysis throws:
`new FrameAnalysis({timestamp, metadata: {error: errMsg}})`. -/
def sentinelAnalysis (ts : ℚ) (msg : String) : FrameAnalysis :=
  { timestamp := ts, metadata := { error := some msg } }

/-- `analyzeFramesBatch` with cancellation never requested: each frame's
result (or error sentinel) is written to that frame's slot; the slot
assignment is independent of completion interleaving. -/
def analyzeFramesBatch (analyzeFrame : Frame → Except String FrameAnalysis)
    (frames : List Frame) : List FrameAnalysis :=
  frames.map fun f =>
    match analyzeFrame f with
    | .ok r => r
    | .error msg => sentinelAnalysis f.timestamp msg

/-! ### HuggingFaceClient._sendWithFallback (part_004 lines 135-215) -/

/-- The possible outcomes of one `fetch` in `_sendWithFallback`.  `ok` is a
2xx response with a non-empty content string; `okEmpty` a 2xx response
whose parsed body lacks `choices[0].message.content` (thrown and caught as
a generic error); `code` any non-2xx HTTP status; `timeoutErr` an
`AbortSignal` timeout; `netErr` a transport failure. -/
inductive FetchOutcome where
  | ok (text : String)
  | okEmpty
  | code (status : Nat) (body : String)
  | timeoutErr
  | netErr (msg : String)
deriving DecidableEq, Repr

/-- Observable events of the fallback loop, in order: which model each
response came from, and which sleeps were performed. -/
inductive FbEvent where
  | ok200 (model : String)
  | got401 (model : String)
  | got429 (model : String)
  | sleepAllModels
  | got503 (model : String)
  | sleepColdStart
  | gotTimeout (model : String)
  | gotOther (model : String)
  | sleepBackoff (ms : Nat)
deriving DecidableEq, Repr

deriving instance DecidableEq for Except

/-- The outcome of `_sendWithFallback`: the event trace, the final
`modelsTriedInRound` counter, and either the thrown error message or the
returned `{text, model}`. -/
structure SendOut where
  events : List FbEvent
  finalTried : Nat
  result : Except String (String × String)
deriving DecidableEq, Repr

/-- `initialBackoff * Math.pow(2, Math.floor(attempt / totalModels))` in ms. -/
def backoffMs (initialBackoff totalModels attempt : Nat) : Nat :=
  initialBackoff * 2 ^ (attempt / totalModels)

/-- The `for (attempt …)` loop of `_sendWithFallback`.  `oracle` maps the
attempt number to that attempt's fetch outcome; `fuel` is the number of
remaining iterations (`maxRetries × totalModels` at entry); `idx` is
`_currentModelIndex`; `tried` is `modelsTriedInRound`. -/
def sendLoop (models : List String) (oracle : Nat → FetchOutcome) :
    Nat → Nat → Nat → Nat → Option String → SendOut
  | 0, _, _, tried, lastErr =>
    { events := [], finalTried := tried, result := .error (lastErr.getD "undefined") }
  | fuel + 1, attempt, idx, tried, lastErr =>
    let model := models.getD idx ""
    match oracle attempt with
    | .ok text => { events := [.ok200 model], finalTried := 0, result := .ok (text, model) }
    | .okEmpty =>
      let out := sendLoop models oracle fuel (attempt + 1) idx tried
        (some "Empty response from HuggingFace")
      { out with events := .gotOther model
          :: .sleepBackoff (backoffMs 2000 models.length attempt) :: out.events }
    | .code status body =>
      if status = 401 then
        { events := [.got401 model], finalTried := tried,
          result := .error "Invalid HuggingFace API token. Please check your token in Settings." }
      else if status = 429 then
        let lastErr' := some ("Rate limited (429) on " ++ model)
        if models.length ≤ tried + 1 then
          let out := sendLoop models oracle fuel (attempt + 1)
            ((idx + 1) % models.length) 0 lastErr'
          { out with events := .got429 model :: .sleepAllModels :: out.events }
        else
          let out := sendLoop models oracle fuel (attempt + 1)
            ((idx + 1) % models.length) (tried + 1) lastErr'
          { out with events := .got429 model :: out.events }
      else if status = 503 then
        let out := sendLoop models oracle fuel (attempt + 1) idx tried
          (some ("Model loading (503): " ++ model))
        { out with events := .got503 model :: .sleepColdStart :: out.events }
      else
        let out := sendLoop models oracle fuel (attempt + 1) idx tried
          (some ("HuggingFace API error " ++ toString status ++ ": " ++ body))
        { out with events := .gotOther model
            :: .sleepBackoff (backoffMs 2000 models.length attempt) :: out.events }
    | .timeoutErr =>
      let out := sendLoop models oracle fuel (attempt + 1) ((idx + 1) % models.length) tried
        (some ("Request to " ++ model ++ " timed out (cold start may take longer)"))
      { out with events := .gotTimeout model :: out.events }
    | .netErr msg =>
      let out := sendLoop models oracle fuel (attempt + 1) idx tried (some msg)
      { out with events := .gotOther model
          :: .sleepBackoff (backoffMs 2000 models.length attempt) :: out.events }

/-- `_sendWithFallback` for one request: `maxRetries (3) × totalModels`
iterations, starting from the client's current model index with a fresh
round counter. -/
def sendWithFallback (models : List String) (startIdx : Nat) (oracle : Nat → FetchOutcome) :
    SendOut :=
  sendLoop models oracle (3 * models.length) 0 startIdx 0 none

/-- The canonical-field view of a parsed vision response
(`FrameAnalysis.fromApiResponse`'s input after coercion, part_003
lines 112-127). -/
structure Parsed where
  kill_log : Bool := false
  match_status : String := "unknown"
  action_intensity : String := "low"
  enemy_visible : Bool := false
  scene_description : String := ""
  confidence : ℚ := 0
  ui_elements : String := ""
  kill_count : Nat := 0
  enemy_count : Nat := 0
  visual_quality : String := "normal"
deriving DecidableEq, Repr

/-- `FrameAnalysis.fromApiResponse`: build the analysis, recording which
model produced it in `modelUsed`. -/
def FrameAnalysis.fromApiResponse (p : Parsed) (timestamp : ℚ) (modelUsed : String) :
    FrameAnalysis :=
  { timestamp := timestamp, killLog := p.kill_log, matchStatus := p.match_status,
    actionIntensity := p.action_intensity, enemyVisible := p.enemy_visible,
    sceneDescription := p.scene_description, confidence := p.confidence,
    uiElements := p.ui_elements, killCount := p.kill_count, enemyCount := p.enemy_count,
    visualQuality := p.visual_quality, modelUsed := modelUsed }

/-! ### Scenario inputs, invariants and auxiliary definitions -/

/-- A concrete frame reporting kills in the count field but no kill feed. -/
def c10Frame : FrameAnalysis :=
  { killLog := false, killCount := 7, actionIntensity := "medium", matchStatus := "victory",
    enemyVisible := true, enemyCount := 1, confidence := 0 }

/-- The S4 scenario planner: `targetDuration 10`, `minClipLength 3`. -/
def s4Planner : CompositionPlanner :=
  { targetDuration := 10, minClipLength := 3, maxClipLength := 15, optimalPace := 5 }

/-- The S4 clip of duration 6. -/
def s4Clip6 : Clip := { timeRange := ⟨0, 6⟩, id := 101 }

/-- The S4 clip of duration 5. -/
def s4Clip5 : Clip := { timeRange := ⟨10, 15⟩, id := 102 }

/-- The S4 clip of duration 4. -/
def s4Clip4 : Clip := { timeRange := ⟨20, 24⟩, id := 103 }

/-- A clip of duration 8, for the remainder-below-minimum case. -/
def s4Clip8 : Clip := { timeRange := ⟨0, 8⟩, id := 104 }

/-- Is this event a 429 response (from any model)? -/
def evIs429 : FbEvent → Bool
  | .got429 _ => true
  | _ => false

/-- Is this event an `allModelsBackoff` sleep? -/
def evIsSleepAll : FbEvent → Bool
  | .sleepAllModels => true
  | _ => false

/-- Event count under a predicate. -/
def countIf (p : FbEvent → Bool) (l : List FbEvent) : Nat := (l.filter p).length

/-- The accounting facts carried through the loop: (a) on a non-success
exit, `|models| × sleeps + finalCounter = #429s + initialCounter` exactly;
(b) always, `|models| × sleeps ≤ #429s + initialCounter`; (c) a success
leaves the counter reset; (d) the counter stays below `|models|`. -/
def Accounted (len tried : Nat) (out : SendOut) : Prop :=
  (len * countIf evIsSleepAll out.events + out.finalTried
      = countIf evIs429 out.events + tried
    ∨ ∃ t m, out.result = .ok (t, m))
  ∧ len * countIf evIsSleepAll out.events ≤ countIf evIs429 out.events + tried
  ∧ (∀ t m, out.result = .ok (t, m) → out.finalTried = 0)
  ∧ out.finalTried < len

/-- The `TimeRange` invariant every constructed clip carries:
a non-negative start not exceeding the end. -/
def ClipBounds (c : Clip) : Prop := 0 ≤ c.start ∧ c.start ≤ c.stop

/-- The S3 clip `A = [10, 18]`, priority 7. -/
def s3ClipA : Clip := { timeRange := ⟨10, 18⟩, priority := 7, id := 110 }

/-- The S3 clip `B = [15, 25]`, priority 10. -/
def s3ClipB : Clip := { timeRange := ⟨15, 25⟩, priority := 10, id := 111 }

/-- The stubbed response sequence refuting the distinct-models reading:
M1 is rate-limited, M2 times out, M1 is rate-limited again. -/
def cexOracle : Nat → FetchOutcome := fun n =>
  if n = 0 then .code 429 ""
  else if n = 1 then .timeoutErr
  else if n = 2 then .code 429 ""
  else .ok "x"

/-- The S6 stub: 429 on the first two attempts, success on the third. -/
def s6Oracle : Nat → FetchOutcome := fun n =>
  if n = 0 then .code 429 ""
  else if n = 1 then .code 429 ""
  else .ok "x"

/-- The invariant carried by every clip of the director pipeline. -/
def ClipSeeded (c : Clip) : Prop := 0 ≤ c.start ∧ c.start + 3 ≤ c.stop

/-- A frame whose clutch moment sits at timestamp 0: its seed clip starts
exactly at 0, refuting strict positivity of clip starts. -/
def ce7Frame : FrameAnalysis :=
  { timestamp := 0, matchStatus := "clutch", actionIntensity := "low" }

/-- Rename a clip's id. -/
def mapId (f : Nat → Nat) (c : Clip) : Clip := { c with id := f c.id }

/-- Shift every id in a director result by `g`. -/
def shiftResult (g : Nat) (r : DirectorResult) : DirectorResult :=
  { r with clips := r.clips.map (mapId (· + g)),
           hookClip := r.hookClip.map (mapId (· + g)) }

/-- Erase every id in a director result. -/
def eraseIds (r : DirectorResult) : DirectorResult :=
  { r with clips := r.clips.map (mapId fun _ => 0),
           hookClip := r.hookClip.map (mapId fun _ => 0) }

/-- The clip the `[ce7Frame]` run finally emits (id from the supply). -/
def ce7FinalClip (g : Nat) : Clip :=
  { timeRange := ⟨0, 5⟩, reason := "Clutch moment", score := ⟨9⟩, clipType := "clutch",
    label := "CLUTCH", priority := 9, actionIntensity := "low", id := g, metadata := {} }

/-! ### Claim C2: Phase-1 excitement scoring -/

/-- Evaluation of the S1 scenario score. -/
lemma excitementOf_s1 : excitementOf s1Analysis = 93 := by
  simp only [excitementOf, s1Analysis]
  norm_num [show intensityExcitement "high" = 18 from rfl,
    show statusExcitement "clutch" = 20 from rfl]

/-- C2: for every frame analysis the Phase-1 excitement score is the sum of
the kill, action-intensity, match-status and enemy terms, multiplied by
`0.5 + 0.5·confidence` exactly when `confidence > 0` (so confidence 0
returns the pre-multiplication sum); the S1 input scores 93. -/
theorem c2_phase1_excitement_scoring :
    (∀ a : FrameAnalysis, excitementOf a = specExcitement a) ∧
    (∀ a : FrameAnalysis, specExcitement a =
      if 0 < a.confidence then specPreSum a * (1/2 + 1/2 * a.confidence) else specPreSum a) ∧
    excitementOf s1Analysis = 93 ∧
    analyzeExcitementLevels [s1Analysis] = [{ s1Analysis with excitementScore := 93 }] := by
  refine ⟨fun _ => rfl, fun _ => rfl, excitementOf_s1, ?_⟩
  simp [analyzeExcitementLevels, excitementOf_s1]

/-! ### Claim C10: no kill excitement without a kill log -/

/-- C10: when `killLog` is false the kill-related contributions vanish;
the score does not depend on `killCount` and equals the sum of the other
three terms (scaled by the confidence factor when positive). -/
theorem c10_no_kill_log_no_kill_excitement (a : FrameAnalysis) (k : Nat)
    (h : a.killLog = false) :
    excitementOf a = excitementOf { a with killCount := k } ∧
    excitementOf a =
      (if 0 < a.confidence then
        (intensityExcitement a.actionIntensity + statusExcitement a.matchStatus
          + specEnemyTerm a) * (1/2 + 1/2 * a.confidence)
       else intensityExcitement a.actionIntensity + statusExcitement a.matchStatus
          + specEnemyTerm a) := by
  constructor
  · simp [excitementOf, h]
  · by_cases hc : 0 < a.confidence <;> simp [excitementOf, specEnemyTerm, h, hc]

/-- Witness for C10 at a concrete frame. -/
theorem c10_no_kill_log_no_kill_excitement_witness :
    c10Frame.killLog = false ∧
    (excitementOf c10Frame = excitementOf { c10Frame with killCount := 0 } ∧
     excitementOf c10Frame =
      (if 0 < c10Frame.confidence then
        (intensityExcitement c10Frame.actionIntensity + statusExcitement c10Frame.matchStatus
          + specEnemyTerm c10Frame) * (1/2 + 1/2 * c10Frame.confidence)
       else intensityExcitement c10Frame.actionIntensity + statusExcitement c10Frame.matchStatus
          + specEnemyTerm c10Frame)) :=
  ⟨rfl, c10_no_kill_log_no_kill_excitement c10Frame 0 rfl⟩

/-! ### Claim C5: batch order, length and sentinel recovery -/

/-- C5: with cancellation never requested, the batch result has one slot
per input frame in input order; a frame whose analysis throws contributes
a sentinel carrying the error message at its own slot, and the remaining
frames are still processed. -/
theorem c5_batch_order_length_sentinels
    (analyzeFrame : Frame → Except String FrameAnalysis) (frames : List Frame) :
    (analyzeFramesBatch analyzeFrame frames).length = frames.length ∧
    ∀ i : Nat, (analyzeFramesBatch analyzeFrame frames)[i]? =
      frames[i]?.map fun f =>
        match analyzeFrame f with
        | .ok r => r
        | .error msg => sentinelAnalysis f.timestamp msg := by
  refine ⟨List.length_map _ _, fun i => ?_⟩
  simp [analyzeFramesBatch, List.getElem?_map]

/-! ### Claim C3: trimming to the target duration -/

/-- Invariant of the admission loop: whatever it admits fits in the
remaining budget. -/
lemma trimLoop_sum_le (p : CompositionPlanner) :
    ∀ (l : List Clip) (acc : ℚ), acc ≤ p.targetDuration →
      ((trimLoop p acc l).map Clip.duration).sum ≤ p.targetDuration - acc
  | [], acc, h => by
    simp only [trimLoop, List.map_nil, List.sum_nil]
    linarith
  | c :: cs, acc, h => by
    by_cases hfit : acc + c.duration ≤ p.targetDuration
    · have ih := trimLoop_sum_le p cs (acc + c.duration) hfit
      simp only [trimLoop, if_pos hfit, List.map_cons, List.sum_cons]
      linarith
    · simp only [trimLoop, if_neg hfit]
      by_cases hrem : p.minClipLength ≤ p.targetDuration - acc
      · simp only [if_pos hrem, List.map_cons, List.map_nil, List.sum_cons, List.sum_nil,
          Clip.duration, Clip.withAdjustedRange, TimeRange.make, TimeRange.duration, Clip.start]
        have hmax := le_max_right (0 : ℚ) c.timeRange.startSeconds
        linarith
      · simp only [if_neg hrem, List.map_nil, List.sum_nil]
        linarith

/-- C3: the greedy trim never admits more than `targetDuration` in total
(hence at most `targetDuration` plus one remainder of at least
`minClipLength`, as claimed); the S4 list `[6, 5, 4]` admits the 6-second
clip whole, the 5-second clip as a 4-second head-slice, and drops the
4-second clip; a remainder below `minClipLength` is dropped instead. -/
theorem c3_trim_to_target_duration (p : CompositionPlanner) (clips : List Clip)
    (htarget : 0 ≤ p.targetDuration) :
    ((trimToTargetDuration p clips).map Clip.duration).sum ≤ p.targetDuration ∧
    trimToTargetDuration s4Planner [s4Clip6, s4Clip5, s4Clip4] =
      [s4Clip6, s4Clip5.withAdjustedRange (TimeRange.make 10 14)] ∧
    trimToTargetDuration s4Planner [s4Clip8, s4Clip5] = [s4Clip8] := by
  refine ⟨?_, ?_, ?_⟩
  · by_cases hempty : clips.isEmpty
    · have hnil : clips = [] := by
        cases clips with
        | nil => rfl
        | cons c cs => simp at hempty
      subst hnil
      simpa [trimToTargetDuration] using htarget
    · unfold trimToTargetDuration
      by_cases hsum : (clips.map Clip.duration).sum ≤ p.targetDuration
      · simp [hempty, hsum]
      · rw [if_neg (by simpa using hempty), if_neg hsum]
        have := trimLoop_sum_le p clips 0 htarget
        linarith
  · norm_num [trimToTargetDuration, trimLoop, s4Planner, s4Clip6, s4Clip5, s4Clip4,
      Clip.duration, TimeRange.duration, Clip.withAdjustedRange, TimeRange.make, Clip.start]
  · norm_num [trimToTargetDuration, trimLoop, s4Planner, s4Clip8, s4Clip5,
      Clip.duration, TimeRange.duration, Clip.withAdjustedRange, TimeRange.make, Clip.start]

/-! ### Claim C4: clamping between direction and assembly -/

/-- A clip surviving `clampClip` ends within the media and spans at least
half a second.  Needs only the `TimeRange` invariant `0 ≤ start` of the
input clip. -/
lemma clampClip_some (d : ℚ) (c c' : Clip) (h0 : 0 ≤ c.start)
    (h : clampClip d c = some c') : c'.stop ≤ d ∧ 1/2 ≤ c'.duration := by
  simp only [clampClip] at h
  split at h
  · exact absurd h (by simp)
  · rename_i hcond
    have hc' : c' = c.withAdjustedRange
        (TimeRange.make (max 0 (min c.start (min c.stop d - 1/10))) (min c.stop d)) :=
      (Option.some.inj h).symm
    have hS : min c.start (min c.stop d - 1/10) = c.start := by
      rcases min_cases c.start (min c.stop d - 1/10) with ⟨heq, _⟩ | ⟨heq, hlt⟩
      · exact heq
      · exfalso
        rw [heq] at hcond
        simp only [not_lt] at hcond
        linarith
    rw [hS] at hc'
    rw [hS] at hcond
    simp only [not_lt] at hcond
    subst hc'
    constructor
    · exact min_le_right _ _
    · simp only [Clip.duration, Clip.withAdjustedRange, TimeRange.make, TimeRange.duration,
        Clip.stop, max_eq_right h0]
      simp only [Clip.stop] at hcond
      linarith

/-- A clip whose clamped span is under half a second is dropped. -/
lemma clampClip_none (d : ℚ) (c : Clip)
    (h : min c.stop d - min c.start (min c.stop d - 1/10) < 1/2) :
    clampClip d c = none := by
  simp only [clampClip, if_pos h]

/-- C4: after the orchestrator's clamping step every surviving clip — and
the surviving hook — satisfies `end ≤ mediaDuration` and
`duration ≥ 0.5`; a clip whose clamped span falls below half a second is
dropped (and the hook may be eliminated by the same rule). -/
theorem c4_clamp_bounds (videoDuration : ℚ) (clips : List Clip) (hook : Clip)
    (hstart : ∀ c ∈ clips, 0 ≤ c.start) (hhook : 0 ≤ hook.start) :
    (∀ c ∈ clampClips videoDuration clips, c.stop ≤ videoDuration ∧ 1/2 ≤ c.duration) ∧
    (∀ c, clampHook videoDuration (some hook) = some c →
      c.stop ≤ videoDuration ∧ 1/2 ≤ c.duration) ∧
    (∀ c : Clip, min c.stop videoDuration - min c.start (min c.stop videoDuration - 1/10) < 1/2 →
      clampClip videoDuration c = none) := by
  refine ⟨fun c' hc' => ?_, fun c' hc' => ?_, fun c h => clampClip_none _ _ h⟩
  · rcases List.mem_filterMap.mp hc' with ⟨c, hc, hsome⟩
    exact clampClip_some _ _ _ (hstart c hc) hsome
  · exact clampClip_some _ _ _ hhook hc'

/-- Witness for C4 at a concrete media duration, clip list and hook. -/
theorem c4_clamp_bounds_witness :
    (∀ c ∈ [s4Clip6], 0 ≤ c.start) ∧ 0 ≤ s4Clip5.start ∧
    ((∀ c ∈ clampClips 20 [s4Clip6], c.stop ≤ 20 ∧ 1/2 ≤ c.duration) ∧
     (∀ c, clampHook 20 (some s4Clip5) = some c → c.stop ≤ 20 ∧ 1/2 ≤ c.duration) ∧
     (∀ c : Clip, min c.stop 20 - min c.start (min c.stop 20 - 1/10) < 1/2 →
       clampClip 20 c = none)) :=
  ⟨by decide, by decide, c4_clamp_bounds 20 [s4Clip6] s4Clip5 (by decide) (by decide)⟩

/-! ### Claim C6: the all-models backoff and round counter -/

lemma countIf_cons (p : FbEvent → Bool) (e : FbEvent) (l : List FbEvent) :
    countIf p (e :: l) = (if p e then 1 else 0) + countIf p l := by
  simp only [countIf, List.filter_cons]
  split <;> simp [Nat.add_comm]

lemma accounted_cons1 (len tried : Nat) (e : FbEvent) (out : SendOut)
    (h429 : evIs429 e = false) (hsl : evIsSleepAll e = false)
    (h : Accounted len tried out) :
    Accounted len tried { out with events := e :: out.events } := by
  obtain ⟨h1, h2, h3, h4⟩ := h
  refine ⟨?_, ?_, h3, h4⟩
  · rcases h1 with h1 | h1
    · left
      simpa [countIf_cons, h429, hsl] using h1
    · exact Or.inr h1
  · simpa [countIf_cons, h429, hsl] using h2

lemma accounted_cons2 (len tried : Nat) (e1 e2 : FbEvent) (out : SendOut)
    (h429a : evIs429 e1 = false) (hsla : evIsSleepAll e1 = false)
    (h429b : evIs429 e2 = false) (hslb : evIsSleepAll e2 = false)
    (h : Accounted len tried out) :
    Accounted len tried { out with events := e1 :: e2 :: out.events } := by
  have := accounted_cons1 len tried e2 out h429b hslb h
  have := accounted_cons1 len tried e1 { out with events := e2 :: out.events } h429a hsla this
  exact this

lemma accounted_429_nosleep (len tried : Nat) (m : String) (out : SendOut)
    (h : Accounted len (tried + 1) out) :
    Accounted len tried { out with events := .got429 m :: out.events } := by
  obtain ⟨h1, h2, h3, h4⟩ := h
  refine ⟨?_, ?_, h3, h4⟩
  · rcases h1 with h1 | h1
    · left
      simp [countIf_cons, evIs429, evIsSleepAll]
      omega
    · exact Or.inr h1
  · simp [countIf_cons, evIs429, evIsSleepAll]
    omega

lemma accounted_429_sleep (len tried : Nat) (m : String) (out : SendOut)
    (hlen : tried + 1 = len) (h : Accounted len 0 out) :
    Accounted len tried { out with events := .got429 m :: .sleepAllModels :: out.events } := by
  obtain ⟨h1, h2, h3, h4⟩ := h
  refine ⟨?_, ?_, h3, h4⟩
  · rcases h1 with h1 | h1
    · left
      simp [countIf_cons, evIs429, evIsSleepAll, Nat.mul_add]
      omega
    · exact Or.inr h1
  · simp [countIf_cons, evIs429, evIsSleepAll, Nat.mul_add]
    omega

/-- Accounting invariant of the fallback loop: every `allModelsBackoff`
sleep consumes exactly `|models|` 429 responses (counted with
multiplicity) accumulated since the last counter reset; a success resets
the counter; the counter stays below `|models|`. -/
lemma sendLoop_accounting (models : List String) (oracle : Nat → FetchOutcome) :
    ∀ (fuel attempt idx tried : Nat) (lastErr : Option String), tried < models.length →
      Accounted models.length tried (sendLoop models oracle fuel attempt idx tried lastErr)
  | 0, attempt, idx, tried, lastErr, h => by
    refine ⟨Or.inl ?_, ?_, ?_, h⟩ <;> simp [sendLoop, countIf]
  | fuel + 1, attempt, idx, tried, lastErr, h => by
    have hlen : 0 < models.length := Nat.lt_of_le_of_lt (Nat.zero_le tried) h
    cases hor : oracle attempt with
    | ok text =>
      refine ⟨Or.inr ⟨text, models.getD idx "", ?_⟩, ?_, fun t m _ => ?_, ?_⟩
      · simp [sendLoop, hor]
      · simp [sendLoop, hor, countIf, evIs429, evIsSleepAll]
      · simp [sendLoop, hor]
      · simp only [sendLoop, hor]
        exact hlen
    | okEmpty =>
      have ih := sendLoop_accounting models oracle fuel (attempt + 1) idx tried
        (some "Empty response from HuggingFace") h
      have hres := accounted_cons2 models.length tried (.gotOther (models.getD idx ""))
        (.sleepBackoff (backoffMs 2000 models.length attempt)) _ rfl rfl rfl rfl ih
      simp only [sendLoop, hor]
      exact hres
    | timeoutErr =>
      have ih := sendLoop_accounting models oracle fuel (attempt + 1)
        ((idx + 1) % models.length) tried
        (some ("Request to " ++ models.getD idx "" ++ " timed out (cold start may take longer)")) h
      have hres := accounted_cons1 models.length tried (.gotTimeout (models.getD idx "")) _
        rfl rfl ih
      simp only [sendLoop, hor]
      exact hres
    | netErr msg =>
      have ih := sendLoop_accounting models oracle fuel (attempt + 1) idx tried (some msg) h
      have hres := accounted_cons2 models.length tried (.gotOther (models.getD idx ""))
        (.sleepBackoff (backoffMs 2000 models.length attempt)) _ rfl rfl rfl rfl ih
      simp only [sendLoop, hor]
      exact hres
    | code status body =>
      by_cases h401 : status = 401
      · refine ⟨Or.inl ?_, ?_, fun t m hm => ?_, ?_⟩
        · simp [sendLoop, hor, h401, countIf, evIs429, evIsSleepAll]
        · simp [sendLoop, hor, h401, countIf, evIs429, evIsSleepAll]
        · rw [show (sendLoop models oracle (fuel + 1) attempt idx tried lastErr).result
              = .error "Invalid HuggingFace API token. Please check your token in Settings."
            from by simp [sendLoop, hor, h401]] at hm
          exact absurd hm (by simp)
        · simp only [sendLoop, hor, h401]
          simpa using h
      · by_cases h429 : status = 429
        · by_cases hfull : models.length ≤ tried + 1
          · have hlen2 : tried + 1 = models.length := le_antisymm (Nat.succ_le_of_lt h) hfull
            have ih := sendLoop_accounting models oracle fuel (attempt + 1)
              ((idx + 1) % models.length) 0
              (some ("Rate limited (429) on " ++ models.getD idx "")) hlen
            have hres := accounted_429_sleep models.length tried (models.getD idx "") _ hlen2 ih
            simp only [sendLoop, hor]
            rw [if_neg h401, if_pos h429, if_pos hfull]
            exact hres
          · have htried : tried + 1 < models.length := lt_of_not_ge hfull
            have ih := sendLoop_accounting models oracle fuel (attempt + 1)
              ((idx + 1) % models.length) (tried + 1)
              (some ("Rate limited (429) on " ++ models.getD idx "")) htried
            have hres := accounted_429_nosleep models.length tried (models.getD idx "") _ ih
            simp only [sendLoop, hor]
            rw [if_neg h401, if_pos h429, if_neg hfull]
            exact hres
        · by_cases h503 : status = 503
          · have ih := sendLoop_accounting models oracle fuel (attempt + 1) idx tried
              (some ("Model loading (503): " ++ models.getD idx "")) h
            have hres := accounted_cons2 models.length tried (.got503 (models.getD idx ""))
              .sleepColdStart _ rfl rfl rfl rfl ih
            simp only [sendLoop, hor]
            rw [if_neg h401, if_neg h429, if_pos h503]
            exact hres
          · have ih := sendLoop_accounting models oracle fuel (attempt + 1) idx tried
              (some ("HuggingFace API error " ++ toString status ++ ": " ++ body)) h
            have hres := accounted_cons2 models.length tried (.gotOther (models.getD idx ""))
              (.sleepBackoff (backoffMs 2000 models.length attempt)) _ rfl rfl rfl rfl ih
            simp only [sendLoop, hor]
            rw [if_neg h401, if_neg h429, if_neg h503]
            exact hres

/-! ### Claim C1: merging overlapping clips -/

lemma mergeStep_start (a b : Clip) (ha : 0 ≤ a.start) (hab : a.start ≤ b.start) :
    (mergeStep a b).start = a.start := by
  simp only [mergeStep, Clip.withAdjustedRange, Clip.start, TimeRange.make] at ha hab ⊢
  rw [min_eq_left hab, max_eq_right ha]

lemma mergeStep_bounds (a b : Clip) (ha : ClipBounds a) (hab : a.start ≤ b.start) :
    ClipBounds (mergeStep a b) := by
  obtain ⟨ha0, hae⟩ := ha
  have hs := mergeStep_start a b ha0 hab
  refine ⟨hs ▸ ha0, ?_⟩
  rw [hs]
  have : a.stop ≤ (mergeStep a b).stop := by
    simp only [mergeStep, Clip.withAdjustedRange, Clip.stop, TimeRange.make]
    exact le_max_left _ _
  linarith

/-- The fold of `mergeOverlappingClips`, on a start-sorted list of valid
clips, yields strictly separated clips whose starts dominate the
accumulator's. -/
lemma mergeLoop_props :
    ∀ (rest : List Clip) (acc : Clip), ClipBounds acc → (∀ c ∈ rest, ClipBounds c) →
      (acc :: rest).Pairwise startLe →
      (mergeLoop acc rest).Pairwise (fun a b => a.stop < b.start) ∧
      (∀ d ∈ mergeLoop acc rest, acc.start ≤ d.start ∧ ClipBounds d)
  | [], acc, hacc, _, _ => by
    simp only [mergeLoop]
    refine ⟨List.pairwise_singleton _ _, fun d hd => ?_⟩
    rw [List.mem_singleton] at hd
    subst hd
    exact ⟨le_refl _, hacc⟩
  | c :: cs, acc, hacc, hrest, hsort => by
    have hac : acc.start ≤ c.start := List.rel_of_pairwise_cons hsort (List.mem_cons_self c cs)
    have hcs : ∀ b ∈ cs, c.start ≤ b.start :=
      fun b hb => List.rel_of_pairwise_cons hsort.of_cons hb
    by_cases hif : c.start ≤ acc.stop
    · have hm : ClipBounds (mergeStep acc c) := mergeStep_bounds acc c hacc hac
      have hmstart : (mergeStep acc c).start = acc.start := mergeStep_start acc c hacc.1 hac
      have hsort' : (mergeStep acc c :: cs).Pairwise startLe := by
        refine List.Pairwise.cons (fun b hb => ?_) hsort.of_cons.of_cons
        show (mergeStep acc c).start ≤ b.start
        rw [hmstart]
        exact le_trans hac (hcs b hb)
      obtain ⟨ih1, ih2⟩ := mergeLoop_props cs (mergeStep acc c) hm
        (fun b hb => hrest b (List.mem_cons_of_mem c hb)) hsort'
      rw [show mergeLoop acc (c :: cs) = mergeLoop (mergeStep acc c) cs from by
        simp [mergeLoop, hif]]
      exact ⟨ih1, fun d hd => ⟨hmstart ▸ (ih2 d hd).1, (ih2 d hd).2⟩⟩
    · have hsort' : (c :: cs).Pairwise startLe := hsort.of_cons
      obtain ⟨ih1, ih2⟩ := mergeLoop_props cs c (hrest c (List.mem_cons_self c cs))
        (fun b hb => hrest b (List.mem_cons_of_mem c hb)) hsort'
      rw [show mergeLoop acc (c :: cs) = acc :: mergeLoop c cs from by
        simp [mergeLoop, hif]]
      refine ⟨List.Pairwise.cons (fun d hd => ?_) ih1, fun d hd => ?_⟩
      · exact lt_of_lt_of_le (lt_of_not_ge hif) (ih2 d hd).1
      · rcases List.mem_cons.mp hd with hd | hd
        · subst hd
          exact ⟨le_refl _, hacc⟩
        · exact ⟨le_trans hacc.2 (le_trans (le_of_lt (lt_of_not_ge hif)) (ih2 d hd).1),
            (ih2 d hd).2⟩

/-- C1: for every candidate clip list (whose clips satisfy the `TimeRange`
invariant), the merge result is strictly separated — for `i < j`,
`clips[j].start > clips[i].end` — hence sorted by start; and the S3
tie-break holds: merging `A = [10, 18]` (priority 7) with `B = [15, 25]`
(priority 10) yields clip `B` with range `[10, 25]`. -/
theorem c1_merge_overlapping_clips (clips : List Clip)
    (hb : ∀ c ∈ clips, 0 ≤ c.start ∧ c.start ≤ c.stop) :
    (∀ i j : Fin (mergeOverlappingClips clips).length, i < j →
      ((mergeOverlappingClips clips).get i).stop < ((mergeOverlappingClips clips).get j).start) ∧
    (mergeOverlappingClips clips).Pairwise startLe ∧
    mergeOverlappingClips [s3ClipA, s3ClipB] =
      [s3ClipB.withAdjustedRange (TimeRange.make 10 25)] := by
  have hmain : (mergeOverlappingClips clips).Pairwise (fun a b => a.stop < b.start) ∧
      ∀ d ∈ mergeOverlappingClips clips, ClipBounds d := by
    unfold mergeOverlappingClips
    cases hs : clips.insertionSort startLe with
    | nil => simp
    | cons c cs =>
      have hsorted : (c :: cs).Pairwise startLe := by
        rw [← hs]
        exact List.sorted_insertionSort startLe clips
      have hmem : ∀ d ∈ c :: cs, ClipBounds d := by
        intro d hd
        apply hb
        rw [← List.mem_insertionSort startLe, hs]
        exact hd
      obtain ⟨h1, h2⟩ := mergeLoop_props cs c (hmem c (List.mem_cons_self c cs))
        (fun b hbm => hmem b (List.mem_cons_of_mem c hbm)) hsorted
      exact ⟨h1, fun d hd => (h2 d hd).2⟩
  refine ⟨?_, ?_, ?_⟩
  · intro i j hij
    exact List.pairwise_iff_get.mp hmain.1 i j hij
  · refine hmain.1.imp_of_mem fun {a b} hma hmb hab => ?_
    have := (hmain.2 a hma).2
    show a.start ≤ b.start
    linarith
  · norm_num [mergeOverlappingClips, List.insertionSort, List.orderedInsert, mergeLoop,
      mergeStep, startLe, s3ClipA, s3ClipB, Clip.start, Clip.stop, Clip.withAdjustedRange,
      TimeRange.make]

/-- Witness for C1 at the S3 clips. -/
theorem c1_merge_overlapping_clips_witness :
    (∀ c ∈ [s3ClipA, s3ClipB], 0 ≤ c.start ∧ c.start ≤ c.stop) ∧
    ((∀ i j : Fin (mergeOverlappingClips [s3ClipA, s3ClipB]).length, i < j →
      ((mergeOverlappingClips [s3ClipA, s3ClipB]).get i).stop
        < ((mergeOverlappingClips [s3ClipA, s3ClipB]).get j).start) ∧
    (mergeOverlappingClips [s3ClipA, s3ClipB]).Pairwise startLe ∧
    mergeOverlappingClips [s3ClipA, s3ClipB] =
      [s3ClipB.withAdjustedRange (TimeRange.make 10 25)]) :=
  ⟨by decide, c1_merge_overlapping_clips [s3ClipA, s3ClipB] (by decide)⟩

/-- C6 counterexample: with models `[M1, M2]` and responses 429 (M1),
timeout (M2), 429 (M1), the loop sleeps `allModelsBackoff` although M2
never returned a 429 — `modelsTriedInRound` counts 429s with
multiplicity, and a timeout rotation realigns the cycle. -/
theorem c6_counterexample_sleep_without_429_from_every_model :
    FbEvent.sleepAllModels ∈ (sendWithFallback ["M1", "M2"] 0 cexOracle).events ∧
    "M2" ∈ ["M1", "M2"] ∧
    FbEvent.got429 "M2" ∉ (sendWithFallback ["M1", "M2"] 0 cexOracle).events := by
  decide

/-- C6 (amended): the loop sleeps `allModelsBackoff` exactly once per
`|models|` HTTP-429 responses received since the last counter reset — the
429s counted with multiplicity, not necessarily one from each model — and
a successful response resets the counter.  In the S6 scenario (M1 → 429,
M2 → 429, M3 → 200) there is exactly one successful call, on M3, no
backoff sleep, the counter resets, and the analysis's `modelUsed` is M3. -/
theorem c6_amended_backoff_accounting (models : List String) (startIdx : Nat)
    (oracle : Nat → FetchOutcome) (hm : 0 < models.length) :
    (models.length * countIf evIsSleepAll (sendWithFallback models startIdx oracle).events
      ≤ countIf evIs429 (sendWithFallback models startIdx oracle).events) ∧
    (∀ e, (sendWithFallback models startIdx oracle).result = .error e →
      models.length * countIf evIsSleepAll (sendWithFallback models startIdx oracle).events
          + (sendWithFallback models startIdx oracle).finalTried
        = countIf evIs429 (sendWithFallback models startIdx oracle).events) ∧
    (∀ t m, (sendWithFallback models startIdx oracle).result = .ok (t, m) →
      (sendWithFallback models startIdx oracle).finalTried = 0) ∧
    (sendWithFallback ["M1", "M2", "M3"] 0 s6Oracle).events
      = [.got429 "M1", .got429 "M2", .ok200 "M3"] ∧
    (sendWithFallback ["M1", "M2", "M3"] 0 s6Oracle).result = .ok ("x", "M3") ∧
    (sendWithFallback ["M1", "M2", "M3"] 0 s6Oracle).finalTried = 0 ∧
    (∀ (p : Parsed) (ts : ℚ), (FrameAnalysis.fromApiResponse p ts "M3").modelUsed = "M3") := by
  obtain ⟨h1, h2, h3, h4⟩ :=
    sendLoop_accounting models oracle (3 * models.length) 0 startIdx 0 none hm
  refine ⟨by simpa using h2, fun e he => ?_, h3, by decide, by decide, by decide,
    fun p ts => rfl⟩
  rcases h1 with h1 | ⟨t, m, hok⟩
  · simpa using h1
  · unfold sendWithFallback at he
    rw [hok] at he
    exact absurd he (by simp)

/-- Witness for the amended C6 theorem at the S6 inputs. -/
theorem c6_amended_backoff_accounting_witness :
    0 < (["M1", "M2", "M3"] : List String).length ∧
    (((["M1", "M2", "M3"] : List String).length
        * countIf evIsSleepAll (sendWithFallback ["M1", "M2", "M3"] 0 s6Oracle).events
      ≤ countIf evIs429 (sendWithFallback ["M1", "M2", "M3"] 0 s6Oracle).events) ∧
    (∀ e, (sendWithFallback ["M1", "M2", "M3"] 0 s6Oracle).result = .error e →
      (["M1", "M2", "M3"] : List String).length
          * countIf evIsSleepAll (sendWithFallback ["M1", "M2", "M3"] 0 s6Oracle).events
          + (sendWithFallback ["M1", "M2", "M3"] 0 s6Oracle).finalTried
        = countIf evIs429 (sendWithFallback ["M1", "M2", "M3"] 0 s6Oracle).events) ∧
    (∀ t m, (sendWithFallback ["M1", "M2", "M3"] 0 s6Oracle).result = .ok (t, m) →
      (sendWithFallback ["M1", "M2", "M3"] 0 s6Oracle).finalTried = 0) ∧
    (sendWithFallback ["M1", "M2", "M3"] 0 s6Oracle).events
      = [.got429 "M1", .got429 "M2", .ok200 "M3"] ∧
    (sendWithFallback ["M1", "M2", "M3"] 0 s6Oracle).result = .ok ("x", "M3") ∧
    (sendWithFallback ["M1", "M2", "M3"] 0 s6Oracle).finalTried = 0 ∧
    (∀ (p : Parsed) (ts : ℚ), (FrameAnalysis.fromApiResponse p ts "M3").modelUsed = "M3")) :=
  ⟨by decide, c6_amended_backoff_accounting ["M1", "M2", "M3"] 0 s6Oracle (by decide)⟩

/-! ### The pipeline validity invariant (claims C7 and C9)

Every clip the director pipeline produces has a non-negative start and a
duration of at least `minClipLength = 3`; this is preserved from seeding
through merging, scoring, length adjustment, trimming and pacing. -/

lemma clipSeeded_bounds {c : Clip} (h : ClipSeeded c) : 0 ≤ c.start ∧ c.start < c.stop :=
  ⟨h.1, by linarith [h.2]⟩

lemma mergeStep_seeded {a b : Clip} (ha : ClipSeeded a) (hb : ClipSeeded b) :
    ClipSeeded (mergeStep a b) := by
  obtain ⟨ha0, hae⟩ := ha
  obtain ⟨hb0, hbe⟩ := hb
  have hs : (mergeStep a b).start = max 0 (min a.start b.start) := by
    simp only [mergeStep, Clip.withAdjustedRange, Clip.start, TimeRange.make]
  have he : (mergeStep a b).stop = max a.stop b.stop := by
    simp only [mergeStep, Clip.withAdjustedRange, Clip.stop, TimeRange.make]
  constructor
  · rw [hs]
    exact le_max_left _ _
  · rw [hs, he]
    have h1 : max 0 (min a.start b.start) ≤ a.start := by
      rcases le_total a.start b.start with hh | hh
      · simp [min_eq_left hh, max_eq_right ha0]
      · simp only [min_eq_right hh, max_eq_right hb0]
        exact hh
    have h2 : a.stop ≤ max a.stop b.stop := le_max_left _ _
    linarith

lemma mergeLoop_seeded :
    ∀ (rest : List Clip) (acc : Clip), ClipSeeded acc → (∀ c ∈ rest, ClipSeeded c) →
      ∀ d ∈ mergeLoop acc rest, ClipSeeded d
  | [], acc, hacc, _, d, hd => by
    simp only [mergeLoop, List.mem_singleton] at hd
    subst hd
    exact hacc
  | c :: cs, acc, hacc, hrest, d, hd => by
    by_cases hif : c.start ≤ acc.stop
    · rw [show mergeLoop acc (c :: cs) = mergeLoop (mergeStep acc c) cs from by
        simp [mergeLoop, hif]] at hd
      exact mergeLoop_seeded cs (mergeStep acc c)
        (mergeStep_seeded hacc (hrest c (List.mem_cons_self c cs)))
        (fun b hb => hrest b (List.mem_cons_of_mem c hb)) d hd
    · rw [show mergeLoop acc (c :: cs) = acc :: mergeLoop c cs from by
        simp [mergeLoop, hif]] at hd
      rcases List.mem_cons.mp hd with hd | hd
      · subst hd
        exact hacc
      · exact mergeLoop_seeded cs c (hrest c (List.mem_cons_self c cs))
          (fun b hb => hrest b (List.mem_cons_of_mem c hb)) d hd

lemma mergeOverlappingClips_seeded (clips : List Clip) (h : ∀ c ∈ clips, ClipSeeded c) :
    ∀ d ∈ mergeOverlappingClips clips, ClipSeeded d := by
  intro d hd
  unfold mergeOverlappingClips at hd
  revert hd
  cases hs : clips.insertionSort startLe with
  | nil => simp
  | cons c cs =>
    intro hd
    have hmem : ∀ b ∈ c :: cs, ClipSeeded b := by
      intro b hb
      apply h
      rw [← List.mem_insertionSort startLe, hs]
      exact hb
    exact mergeLoop_seeded cs c (hmem c (List.mem_cons_self c cs))
      (fun b hb => hmem b (List.mem_cons_of_mem c hb)) d hd

lemma seedWith_mem {f : α → Nat → Clip} {P : Clip → Prop}
    (hf : ∀ x ∈ l, ∀ g, P (f x g)) :
    ∀ {gen : Nat}, ∀ c ∈ seedWith f gen l, P c := by
  induction l with
  | nil => intro gen c hc; simp [seedWith] at hc
  | cons x xs ih =>
    intro gen c hc
    rcases List.mem_cons.mp hc with hc | hc
    · subst hc
      exact hf x (List.mem_cons_self x xs) gen
    · exact ih (fun y hy g => hf y (List.mem_cons_of_mem x hy) g) c hc

lemma detectMultiLoop_inv (w : ℚ) :
    ∀ (l : List ℚ), l.Pairwise (· ≤ ·) → (∀ t ∈ l, 0 ≤ t) →
      ∀ ev ∈ detectMultiLoop w l, 0 ≤ ev.timestamp ∧ ev.timestamp ≤ ev.endTimestamp
  | [], _, _ => by simp [detectMultiLoop]
  | t :: rest, hsort, hpos => by
    intro ev hev
    rw [detectMultiLoop] at hev
    rcases List.mem_append.mp hev with hev | hev
    · revert hev
      split
      · intro hev
        rw [List.mem_singleton] at hev
        subst hev
        refine ⟨hpos t (List.mem_cons_self t rest), ?_⟩
        show t ≤ (rest.takeWhile fun u => decide (u - t ≤ w)).getLastD t
        have hlast := List.getLastD_mem_cons (rest.takeWhile fun u => decide (u - t ≤ w)) t
        rcases List.mem_cons.mp hlast with hl | hl
        · rw [hl]
        · exact List.rel_of_pairwise_cons hsort (List.takeWhile_subset _ hl)
      · intro hev
        simp at hev
    · exact detectMultiLoop_inv w (rest.dropWhile fun u => decide (u - t ≤ w))
        (List.Pairwise.sublist ((List.dropWhile_sublist _).cons t) hsort)
        (fun u hu => hpos u (List.mem_cons_of_mem t (List.dropWhile_subset _ hu)))
        ev hev
termination_by l => l.length
decreasing_by
  simp only [List.length_cons]
  exact Nat.lt_succ_of_le (List.dropWhile_sublist _).length_le

lemma detectMultiEvents_inv (analyses : List FrameAnalysis) (w : ℚ)
    (h : ∀ a ∈ analyses, 0 ≤ a.timestamp) :
    ∀ ev ∈ detectMultiEvents analyses w, 0 ≤ ev.timestamp ∧ ev.timestamp ≤ ev.endTimestamp := by
  intro ev hev
  unfold detectMultiEvents at hev
  refine detectMultiLoop_inv w _ ?_ ?_ ev hev
  · exact List.sorted_insertionSort _ _
  · intro t ht
    rw [List.mem_insertionSort] at ht
    rcases List.mem_map.mp ht with ⟨a, ha, rfl⟩
    exact h a (List.mem_filter.mp ha).1

lemma mkMultiClip_seeded (mk : MultiEvent) (g : Nat)
    (h0 : 0 ≤ mk.timestamp) (he : mk.timestamp ≤ mk.endTimestamp) :
    ClipSeeded (mkMultiClip mk g) := by
  have hstart : (mkMultiClip mk g).start = max 0 (mk.timestamp - 3) := by
    simp [mkMultiClip, Clip.start, TimeRange.make, max_comm, max_left_comm, max_assoc]
  have hstop : (mkMultiClip mk g).stop
      = (if mk.endTimestamp = 0 then mk.timestamp else mk.endTimestamp) + 3 := by
    simp [mkMultiClip, Clip.stop, TimeRange.make]
  constructor
  · rw [hstart]
    exact le_max_left _ _
  · rw [hstart, hstop]
    split
    · rcases max_cases (0 : ℚ) (mk.timestamp - 3) with ⟨hmx, _⟩ | ⟨hmx, _⟩ <;>
        rw [hmx] <;> linarith
    · rcases max_cases (0 : ℚ) (mk.timestamp - 3) with ⟨hmx, _⟩ | ⟨hmx, _⟩ <;>
        rw [hmx] <;> linarith

lemma mkClutchClip_seeded (cm : ClutchMoment) (g : Nat) (h0 : 0 ≤ cm.timestamp) :
    ClipSeeded (mkClutchClip cm g) := by
  have hstart : (mkClutchClip cm g).start = max 0 (cm.timestamp - 5) := by
    simp [mkClutchClip, Clip.start, TimeRange.make, max_comm, max_left_comm, max_assoc]
  have hstop : (mkClutchClip cm g).stop = cm.timestamp + 5 := by
    simp [mkClutchClip, Clip.stop, TimeRange.make]
  constructor
  · rw [hstart]
    exact le_max_left _ _
  · rw [hstart, hstop]
    rcases max_cases (0 : ℚ) (cm.timestamp - 5) with ⟨hmx, _⟩ | ⟨hmx, _⟩ <;>
      rw [hmx] <;> linarith

lemma mkExciteClip_seeded (a : FrameAnalysis) (g : Nat) (h0 : 0 ≤ a.timestamp) :
    ClipSeeded (mkExciteClip a g) := by
  have hstart : (mkExciteClip a g).start = max 0 (a.timestamp - 2) := by
    simp [mkExciteClip, Clip.start, TimeRange.make, max_comm, max_left_comm, max_assoc]
  have hstop : (mkExciteClip a g).stop = a.timestamp + 3 := by
    simp [mkExciteClip, Clip.stop, TimeRange.make]
  constructor
  · rw [hstart]
    exact le_max_left _ _
  · rw [hstart, hstop]
    rcases max_cases (0 : ℚ) (a.timestamp - 2) with ⟨hmx, _⟩ | ⟨hmx, _⟩ <;>
      rw [hmx] <;> linarith

lemma analyzeExcitementLevels_ts (analyses : List FrameAnalysis)
    (h : ∀ a ∈ analyses, 0 ≤ a.timestamp) :
    ∀ b ∈ analyzeExcitementLevels analyses, 0 ≤ b.timestamp := by
  intro b hb
  rcases List.mem_map.mp hb with ⟨a, ha, rfl⟩
  exact h a ha

lemma seedClips_seeded (gen : Nat) (analyses : List FrameAnalysis)
    (events : List MultiEvent) (clutch : List ClutchMoment)
    (hts : ∀ a ∈ analyses, 0 ≤ a.timestamp)
    (hev : ∀ ev ∈ events, 0 ≤ ev.timestamp ∧ ev.timestamp ≤ ev.endTimestamp)
    (hcm : ∀ cm ∈ clutch, 0 ≤ cm.timestamp) :
    ∀ c ∈ seedClips gen analyses events clutch, ClipSeeded c := by
  intro c hc
  unfold seedClips at hc
  rcases List.mem_append.mp hc with hc | hc
  · rcases List.mem_append.mp hc with hc | hc
    · exact seedWith_mem (fun ev hevm g => mkMultiClip_seeded ev g (hev ev hevm).1
        (hev ev hevm).2) c hc
    · exact seedWith_mem (fun cm hcmm g => mkClutchClip_seeded cm g (hcm cm hcmm)) c hc
  · exact seedWith_mem (fun a ham g => mkExciteClip_seeded a g
      (hts a (List.mem_filter.mp ham).1)) c hc

lemma scoreClipAgainst_range (p : CompositionPlanner) (analyses : List FrameAnalysis)
    (c : Clip) : (scoreClipAgainst p analyses c).timeRange = c.timeRange := rfl

lemma defaultPlanner_target : defaultPlanner.targetDuration = 180 := rfl

lemma defaultPlanner_min : defaultPlanner.minClipLength = 3 := rfl

lemma defaultPlanner_max : defaultPlanner.maxClipLength = 15 := rfl

lemma adjustClipOne_seeded (c : Clip) (h : ClipSeeded c) :
    ClipSeeded (adjustClipOne defaultPlanner c) := by
  obtain ⟨h0, h3⟩ := h
  have hse : c.start ≤ c.stop := by linarith
  simp only [adjustClipOne]
  by_cases hmax : defaultPlanner.maxClipLength < c.duration
  · rw [if_pos hmax]
    have hd : (15 : ℚ) < c.stop - c.start := by
      simpa [defaultPlanner_max, Clip.duration, TimeRange.duration, Clip.start, Clip.stop]
        using hmax
    have hmid : c.timeRange.midpoint = (c.start + c.stop) / 2 := rfl
    have hc1 : c.start ≤ c.timeRange.midpoint - defaultPlanner.maxClipLength / 2 := by
      rw [hmid, defaultPlanner_max]
      linarith
    have hc2 : c.timeRange.midpoint + defaultPlanner.maxClipLength / 2 ≤ c.stop := by
      rw [hmid, defaultPlanner_max]
      linarith
    constructor
    · simp only [Clip.withAdjustedRange, Clip.start, TimeRange.make]
      exact le_max_left _ _
    · show (TimeRange.make (max c.start (c.timeRange.midpoint - defaultPlanner.maxClipLength / 2))
          (min c.stop (c.timeRange.midpoint + defaultPlanner.maxClipLength / 2))).startSeconds + 3
        ≤ (TimeRange.make (max c.start (c.timeRange.midpoint - defaultPlanner.maxClipLength / 2))
          (min c.stop (c.timeRange.midpoint + defaultPlanner.maxClipLength / 2))).endSeconds
      rw [max_eq_right hc1, min_eq_right hc2]
      have h0m : (0 : ℚ) ≤ c.timeRange.midpoint - defaultPlanner.maxClipLength / 2 :=
        le_trans h0 hc1
      simp only [TimeRange.make, max_eq_right h0m]
      rw [hmid, defaultPlanner_max]
      linarith
  · rw [if_neg hmax]
    have hnmin : ¬ c.duration < defaultPlanner.minClipLength := by
      rw [defaultPlanner_min]
      simp only [Clip.duration, TimeRange.duration, not_lt]
      simp only [Clip.start, Clip.stop] at h3
      linarith
    rw [if_neg hnmin]
    exact ⟨h0, h3⟩

lemma trimLoop_seeded :
    ∀ (l : List Clip) (acc : ℚ), (∀ c ∈ l, ClipSeeded c) →
      ∀ d ∈ trimLoop defaultPlanner acc l, ClipSeeded d
  | [], acc, _, d, hd => by simp [trimLoop] at hd
  | c :: cs, acc, hl, d, hd => by
    by_cases hfit : acc + c.duration ≤ defaultPlanner.targetDuration
    · rw [show trimLoop defaultPlanner acc (c :: cs)
          = c :: trimLoop defaultPlanner (acc + c.duration) cs from by
        simp [trimLoop, hfit]] at hd
      rcases List.mem_cons.mp hd with hd | hd
      · rw [hd]
        exact hl c (List.mem_cons_self c cs)
      · exact trimLoop_seeded cs (acc + c.duration)
          (fun b hb => hl b (List.mem_cons_of_mem c hb)) d hd
    · simp only [trimLoop, if_neg hfit] at hd
      by_cases hrem : defaultPlanner.minClipLength ≤ defaultPlanner.targetDuration - acc
      · rw [if_pos hrem] at hd
        rw [List.mem_singleton] at hd
        subst hd
        obtain ⟨h0, _⟩ := hl c (List.mem_cons_self c cs)
        rw [defaultPlanner_min] at hrem
        constructor
        · show (0:ℚ) ≤ (TimeRange.make c.start
            (c.start + (defaultPlanner.targetDuration - acc))).startSeconds
          exact le_max_left _ _
        · show (TimeRange.make c.start
              (c.start + (defaultPlanner.targetDuration - acc))).startSeconds + 3
            ≤ (TimeRange.make c.start
              (c.start + (defaultPlanner.targetDuration - acc))).endSeconds
          simp only [TimeRange.make, max_eq_right h0]
          linarith
      · rw [if_neg hrem] at hd
        simp at hd

lemma trimToTargetDuration_seeded (l : List Clip) (h : ∀ c ∈ l, ClipSeeded c) :
    ∀ d ∈ trimToTargetDuration defaultPlanner l, ClipSeeded d := by
  intro d hd
  unfold trimToTargetDuration at hd
  split at hd
  · exact h d hd
  · split at hd
    · exact h d hd
    · exact trimLoop_seeded l 0 h d hd

lemma pacingLoop_mem :
    ∀ (ms hs : List Clip), ∀ d ∈ pacingLoop ms hs, d ∈ ms ∨ d ∈ hs
  | [], [], d, hd => by simp [pacingLoop] at hd
  | [], h :: hs, d, hd => by
    rw [show pacingLoop [] (h :: hs) = h :: pacingLoop [] hs from by simp [pacingLoop]] at hd
    rcases List.mem_cons.mp hd with hd | hd
    · exact Or.inr (hd ▸ List.mem_cons_self h hs)
    · rcases pacingLoop_mem [] hs d hd with hm | hm
      · exact Or.inl hm
      · exact Or.inr (List.mem_cons_of_mem h hm)
  | m :: ms, [], d, hd => by
    rw [show pacingLoop (m :: ms) [] = m :: pacingLoop ms [] from by simp [pacingLoop]] at hd
    rcases List.mem_cons.mp hd with hd | hd
    · exact Or.inl (hd ▸ List.mem_cons_self m ms)
    · rcases pacingLoop_mem ms [] d hd with hm | hm
      · exact Or.inl (List.mem_cons_of_mem m hm)
      · exact Or.inr hm
  | m :: ms, h :: hs, d, hd => by
    rw [show pacingLoop (m :: ms) (h :: hs) = m :: h :: pacingLoop ms hs from by
      simp [pacingLoop]] at hd
    rcases List.mem_cons.mp hd with hd | hd
    · exact Or.inl (hd ▸ List.mem_cons_self m ms)
    · rcases List.mem_cons.mp hd with hd | hd
      · exact Or.inr (hd ▸ List.mem_cons_self h hs)
      · rcases pacingLoop_mem ms hs d hd with hm | hm
        · exact Or.inl (List.mem_cons_of_mem m hm)
        · exact Or.inr (List.mem_cons_of_mem h hm)

lemma optimizePacing_mem (l : List Clip) : ∀ d ∈ optimizePacing l, d ∈ l := by
  intro d hd
  unfold optimizePacing at hd
  split at hd
  · exact hd
  · set high := l.filter fun c =>
      decide (c.actionIntensity = "very_high" ∨ c.actionIntensity = "high") with hhigh
    rcases List.mem_append.mp hd with hd | hd
    · revert hd
      cases hh : high with
      | nil =>
        intro hd
        rcases pacingLoop_mem _ [] d hd with hm | hm
        · exact (List.mem_filter.mp hm).1
        · simp at hm
      | cons c cs =>
        intro hd
        rcases List.mem_cons.mp hd with hd | hd
        · subst hd
          have : d ∈ high := by rw [hh]; exact List.mem_cons_self _ _
          exact (List.mem_filter.mp this).1
        · rcases pacingLoop_mem _ cs d hd with hm | hm
          · exact (List.mem_filter.mp hm).1
          · have : d ∈ high := by rw [hh]; exact List.mem_cons_of_mem c hm
            exact (List.mem_filter.mp this).1
    · exact (List.mem_filter.mp (List.take_subset 2 _ hd)).1

lemma bestByScore_mem (c : Clip) (cs : List Clip) : bestByScore c cs ∈ c :: cs := by
  induction cs generalizing c with
  | nil => simp [bestByScore]
  | cons b bs ih =>
    have hstep : bestByScore c (b :: bs)
        = bestByScore (if b.score.value ≤ c.score.value then c else b) bs := rfl
    rw [hstep]
    rcases List.mem_cons.mp (ih (if b.score.value ≤ c.score.value then c else b)) with hm | hm
    · rw [hm]
      split
      · exact List.mem_cons_self _ _
      · exact List.mem_cons_of_mem _ (List.mem_cons_self _ _)
    · exact List.mem_cons_of_mem _ (List.mem_cons_of_mem _ hm)

lemma bestByScore_max (c : Clip) (cs : List Clip) :
    ∀ d ∈ c :: cs, d.score.value ≤ (bestByScore c cs).score.value := by
  induction cs generalizing c with
  | nil =>
    intro d hd
    rcases List.mem_cons.mp hd with hd | hd
    · rw [hd]
      exact le_refl _
    · simp at hd
  | cons b bs ih =>
    intro d hd
    have hstep : bestByScore c (b :: bs)
        = bestByScore (if b.score.value ≤ c.score.value then c else b) bs := rfl
    rw [hstep]
    have hinit : ∀ e : Clip, e = c ∨ e = b →
        e.score.value ≤ (if b.score.value ≤ c.score.value then c else b).score.value := by
      intro e he
      split
      · rename_i hcb
        rcases he with he | he <;> rw [he]
        exact hcb
      · rename_i hcb
        rcases he with he | he <;> rw [he]
        exact le_of_lt (lt_of_not_le hcb)
    have hmax := ih (if b.score.value ≤ c.score.value then c else b)
    rcases List.mem_cons.mp hd with hd | hd
    · exact le_trans (hinit d (Or.inl hd)) (hmax _ (List.mem_cons_self _ _))
    · rcases List.mem_cons.mp hd with hd | hd
      · exact le_trans (hinit d (Or.inr hd)) (hmax _ (List.mem_cons_self _ _))
      · exact hmax d (List.mem_cons_of_mem _ hd)

/-- Every clip in the director's final list satisfies the pipeline
invariant. -/
lemma directClips_seeded (analyses : List FrameAnalysis) (g : Nat)
    (h : ∀ a ∈ analyses, 0 ≤ a.timestamp) :
    ∀ c ∈ directClips analyses g, ClipSeeded c := by
  intro c hc
  have hts := analyzeExcitementLevels_ts analyses h
  have hseeds := seedClips_seeded g (analyzeExcitementLevels analyses)
    (detectMultiEvents (analyzeExcitementLevels analyses) 10)
    (detectClutchMoments (analyzeExcitementLevels analyses)) hts
    (detectMultiEvents_inv _ 10 hts)
    (by
      intro cm hcm
      unfold detectClutchMoments at hcm
      rcases List.mem_map.mp hcm with ⟨a, ha, rfl⟩
      exact hts a (List.mem_filter.mp ha).1)
  have hmerged : ∀ d ∈ (suggestHighlights g (analyzeExcitementLevels analyses)
      (detectMultiEvents (analyzeExcitementLevels analyses) 10)
      (detectClutchMoments (analyzeExcitementLevels analyses))).1, ClipSeeded d := by
    intro d hd
    refine mergeOverlappingClips_seeded _ ?_ d hd
    intro b hb
    rw [List.mem_insertionSort] at hb
    exact hseeds b hb
  have hscored : ∀ d ∈ scoreClips defaultPlanner (suggestHighlights g
      (analyzeExcitementLevels analyses)
      (detectMultiEvents (analyzeExcitementLevels analyses) 10)
      (detectClutchMoments (analyzeExcitementLevels analyses))).1
      (analyzeExcitementLevels analyses), ClipSeeded d := by
    intro d hd
    rcases List.mem_map.mp hd with ⟨b, hb, rfl⟩
    have := hmerged b hb
    unfold ClipSeeded Clip.start Clip.stop at this ⊢
    rwa [scoreClipAgainst_range]
  have hadjusted : ∀ d ∈ adjustClipLengths defaultPlanner (scoreClips defaultPlanner
      (suggestHighlights g (analyzeExcitementLevels analyses)
        (detectMultiEvents (analyzeExcitementLevels analyses) 10)
        (detectClutchMoments (analyzeExcitementLevels analyses))).1
      (analyzeExcitementLevels analyses)), ClipSeeded d := by
    intro d hd
    rcases List.mem_map.mp hd with ⟨b, hb, rfl⟩
    exact adjustClipOne_seeded b (hscored b hb)
  have htrimmed := trimToTargetDuration_seeded _ (fun b hb => hadjusted b (by
    rw [← List.mem_insertionSort scoreGe]
    exact hb))
  unfold directClips optimizeClips at hc
  exact htrimmed c (optimizePacing_mem _ c hc)

lemma clampClip_start_nonneg (d : ℚ) (c c' : Clip) (h : clampClip d c = some c') :
    0 ≤ c'.start := by
  simp only [clampClip] at h
  split at h
  · exact absurd h (by simp)
  · rw [← Option.some.inj h]
    exact le_max_left _ _

/-- With the best clip's midpoint at least 1.5 seconds in, the hook is the
centred 3-second clip around it. -/
lemma createHookIntro_eq (gen : Nat) (c : Clip) (cs : List Clip)
    (hmid : 3/2 ≤ (bestByScore c cs).timeRange.midpoint) :
    createHookIntro gen (c :: cs) = some
      { timeRange := ⟨(bestByScore c cs).timeRange.midpoint - 3/2,
                      (bestByScore c cs).timeRange.midpoint + 3/2⟩,
        reason := "hook", score := (bestByScore c cs).score, clipType := "hook",
        label := "HOOK", priority := 0, actionIntensity := "low", id := gen,
        metadata := { isHook := true } } := by
  have hx : (0:ℚ) ≤ (bestByScore c cs).timeRange.midpoint - 3/2 := by linarith
  simp only [createHookIntro, TimeRange.make, max_eq_right hx]

/-! ### Claim C7: range validity at every stage -/

/-- C7 counterexample: in the run on `[ce7Frame]` the seeding stage
produces a clip whose start is 0, so `start > 0` fails (the `TimeRange`
constructor only clamps the start to be ≥ 0). -/
theorem c7_counterexample_zero_start :
    ¬ (∀ c ∈ seedClips 0 (analyzeExcitementLevels [ce7Frame])
        (detectMultiEvents (analyzeExcitementLevels [ce7Frame]) 10)
        (detectClutchMoments (analyzeExcitementLevels [ce7Frame])), 0 < c.start) := by
  have hexc : excitementOf ce7Frame = 20 := by
    simp only [excitementOf, ce7Frame]
    norm_num [show intensityExcitement "low" = 0 from rfl,
      show statusExcitement "clutch" = 20 from rfl]
  have hseeds : seedClips 0 (analyzeExcitementLevels [ce7Frame])
      (detectMultiEvents (analyzeExcitementLevels [ce7Frame]) 10)
      (detectClutchMoments (analyzeExcitementLevels [ce7Frame]))
      = [mkClutchClip { timestamp := 0, type := "clutch", actionIntensity := "low" } 0] := by
    have henh : analyzeExcitementLevels [ce7Frame]
        = [{ ce7Frame with excitementScore := 20 }] := by
      simp [analyzeExcitementLevels, hexc]
    rw [henh]
    have hmes : detectMultiEvents [{ ce7Frame with excitementScore := 20 }] 10 = [] := by
      simp [detectMultiEvents, detectMultiLoop, ce7Frame, List.insertionSort, List.filter_cons]
    have hcms : detectClutchMoments [{ ce7Frame with excitementScore := 20 }]
        = [{ timestamp := 0, type := "clutch", actionIntensity := "low" }] := by
      simp [detectClutchMoments, ce7Frame, List.filter_cons]
    rw [hmes, hcms]
    simp only [seedClips, seedWith, List.filter_cons, List.filter_nil, decide_eq_true_eq,
      ce7Frame, List.length_nil, List.length_cons]
    norm_num [seedWith]
  intro hall
  have h1 := hall _ (hseeds ▸ List.mem_singleton_self _)
  revert h1
  norm_num [mkClutchClip, TimeRange.make, Clip.start]

/-- C7 (amended): in every run on analyses with non-negative timestamps,
every clip at every stage — seeding, merging, composition scoring, length
adjustment, trimming, pacing (the final list), hook creation, and
orchestrator clamping — satisfies `end > start ≥ 0` (the start can be
exactly 0, clamped there by the `TimeRange` constructor). -/
theorem c7_amended_every_stage_valid (analyses : List FrameAnalysis) (g : Nat)
    (h : ∀ a ∈ analyses, 0 ≤ a.timestamp) :
    (∀ c ∈ seedClips g (analyzeExcitementLevels analyses)
        (detectMultiEvents (analyzeExcitementLevels analyses) 10)
        (detectClutchMoments (analyzeExcitementLevels analyses)),
      0 ≤ c.start ∧ c.start < c.stop) ∧
    (∀ c ∈ (suggestHighlights g (analyzeExcitementLevels analyses)
        (detectMultiEvents (analyzeExcitementLevels analyses) 10)
        (detectClutchMoments (analyzeExcitementLevels analyses))).1,
      0 ≤ c.start ∧ c.start < c.stop) ∧
    (∀ c ∈ scoreClips defaultPlanner (suggestHighlights g
        (analyzeExcitementLevels analyses)
        (detectMultiEvents (analyzeExcitementLevels analyses) 10)
        (detectClutchMoments (analyzeExcitementLevels analyses))).1
        (analyzeExcitementLevels analyses),
      0 ≤ c.start ∧ c.start < c.stop) ∧
    (∀ c ∈ adjustClipLengths defaultPlanner (scoreClips defaultPlanner (suggestHighlights g
        (analyzeExcitementLevels analyses)
        (detectMultiEvents (analyzeExcitementLevels analyses) 10)
        (detectClutchMoments (analyzeExcitementLevels analyses))).1
        (analyzeExcitementLevels analyses)),
      0 ≤ c.start ∧ c.start < c.stop) ∧
    (∀ c ∈ directClips analyses g, 0 ≤ c.start ∧ c.start < c.stop) ∧
    (∀ hk, (direct analyses g).hookClip = some hk → 0 ≤ hk.start ∧ hk.start < hk.stop) ∧
    (∀ dur : ℚ, ∀ c ∈ clampClips dur (directClips analyses g),
      0 ≤ c.start ∧ c.start < c.stop) := by
  have hts := analyzeExcitementLevels_ts analyses h
  have hcm : ∀ cm ∈ detectClutchMoments (analyzeExcitementLevels analyses),
      0 ≤ cm.timestamp := by
    intro cm hcm
    unfold detectClutchMoments at hcm
    rcases List.mem_map.mp hcm with ⟨a, ha, rfl⟩
    exact hts a (List.mem_filter.mp ha).1
  have hseeds := seedClips_seeded g (analyzeExcitementLevels analyses)
    (detectMultiEvents (analyzeExcitementLevels analyses) 10)
    (detectClutchMoments (analyzeExcitementLevels analyses)) hts
    (detectMultiEvents_inv _ 10 hts) hcm
  have hmerged : ∀ d ∈ (suggestHighlights g (analyzeExcitementLevels analyses)
      (detectMultiEvents (analyzeExcitementLevels analyses) 10)
      (detectClutchMoments (analyzeExcitementLevels analyses))).1, ClipSeeded d := by
    intro d hd
    refine mergeOverlappingClips_seeded _ ?_ d hd
    intro b hb
    rw [List.mem_insertionSort] at hb
    exact hseeds b hb
  have hscored : ∀ d ∈ scoreClips defaultPlanner (suggestHighlights g
      (analyzeExcitementLevels analyses)
      (detectMultiEvents (analyzeExcitementLevels analyses) 10)
      (detectClutchMoments (analyzeExcitementLevels analyses))).1
      (analyzeExcitementLevels analyses), ClipSeeded d := by
    intro d hd
    rcases List.mem_map.mp hd with ⟨b, hb, rfl⟩
    have := hmerged b hb
    unfold ClipSeeded Clip.start Clip.stop at this ⊢
    rwa [scoreClipAgainst_range]
  have hadjusted : ∀ d ∈ adjustClipLengths defaultPlanner (scoreClips defaultPlanner
      (suggestHighlights g (analyzeExcitementLevels analyses)
        (detectMultiEvents (analyzeExcitementLevels analyses) 10)
        (detectClutchMoments (analyzeExcitementLevels analyses))).1
      (analyzeExcitementLevels analyses)), ClipSeeded d := by
    intro d hd
    rcases List.mem_map.mp hd with ⟨b, hb, rfl⟩
    exact adjustClipOne_seeded b (hscored b hb)
  have hfinal := directClips_seeded analyses g h
  refine ⟨fun c hc => clipSeeded_bounds (hseeds c hc),
    fun c hc => clipSeeded_bounds (hmerged c hc),
    fun c hc => clipSeeded_bounds (hscored c hc),
    fun c hc => clipSeeded_bounds (hadjusted c hc),
    fun c hc => clipSeeded_bounds (hfinal c hc), ?_, ?_⟩
  · intro hk hhk
    have hhook : (direct analyses g).hookClip
        = createHookIntro (directGen analyses g) (directClips analyses g) := rfl
    rw [hhook] at hhk
    revert hhk
    cases hcl : directClips analyses g with
    | nil => intro hhk; simp [createHookIntro] at hhk
    | cons c cs =>
      intro hhk
      have hbs := hfinal _ (hcl ▸ bestByScore_mem c cs)
      have hmid : 3/2 ≤ (bestByScore c cs).timeRange.midpoint := by
        obtain ⟨h0, h3⟩ := hbs
        show 3/2 ≤ ((bestByScore c cs).timeRange.startSeconds
          + (bestByScore c cs).timeRange.endSeconds) / 2
        simp only [Clip.start, Clip.stop] at h0 h3
        linarith
      rw [createHookIntro_eq _ c cs hmid] at hhk
      rw [← Option.some.inj hhk]
      constructor
      · show (0:ℚ) ≤ (bestByScore c cs).timeRange.midpoint - 3/2
        linarith
      · show (bestByScore c cs).timeRange.midpoint - 3/2
          < (bestByScore c cs).timeRange.midpoint + 3/2
        linarith
  · intro dur c hc
    rcases List.mem_filterMap.mp hc with ⟨b, hb, hsome⟩
    have hb0 := (hfinal b hb).1
    have hprops := clampClip_some dur b c hb0 hsome
    refine ⟨clampClip_start_nonneg dur b c hsome, ?_⟩
    have := hprops.2
    simp only [Clip.duration, TimeRange.duration, Clip.start, Clip.stop] at this ⊢
    linarith

/-- Witness for the amended C7 theorem at a concrete run. -/
theorem c7_amended_every_stage_valid_witness :
    (∀ a ∈ [ce7Frame], 0 ≤ a.timestamp) ∧
    ((∀ c ∈ seedClips 0 (analyzeExcitementLevels [ce7Frame])
        (detectMultiEvents (analyzeExcitementLevels [ce7Frame]) 10)
        (detectClutchMoments (analyzeExcitementLevels [ce7Frame])),
      0 ≤ c.start ∧ c.start < c.stop) ∧
    (∀ c ∈ (suggestHighlights 0 (analyzeExcitementLevels [ce7Frame])
        (detectMultiEvents (analyzeExcitementLevels [ce7Frame]) 10)
        (detectClutchMoments (analyzeExcitementLevels [ce7Frame]))).1,
      0 ≤ c.start ∧ c.start < c.stop) ∧
    (∀ c ∈ scoreClips defaultPlanner (suggestHighlights 0
        (analyzeExcitementLevels [ce7Frame])
        (detectMultiEvents (analyzeExcitementLevels [ce7Frame]) 10)
        (detectClutchMoments (analyzeExcitementLevels [ce7Frame]))).1
        (analyzeExcitementLevels [ce7Frame]),
      0 ≤ c.start ∧ c.start < c.stop) ∧
    (∀ c ∈ adjustClipLengths defaultPlanner (scoreClips defaultPlanner (suggestHighlights 0
        (analyzeExcitementLevels [ce7Frame])
        (detectMultiEvents (analyzeExcitementLevels [ce7Frame]) 10)
        (detectClutchMoments (analyzeExcitementLevels [ce7Frame]))).1
        (analyzeExcitementLevels [ce7Frame])),
      0 ≤ c.start ∧ c.start < c.stop) ∧
    (∀ c ∈ directClips [ce7Frame] 0, 0 ≤ c.start ∧ c.start < c.stop) ∧
    (∀ hk, (direct [ce7Frame] 0).hookClip = some hk → 0 ≤ hk.start ∧ hk.start < hk.stop) ∧
    (∀ dur : ℚ, ∀ c ∈ clampClips dur (directClips [ce7Frame] 0),
      0 ≤ c.start ∧ c.start < c.stop)) :=
  ⟨by decide, c7_amended_every_stage_valid [ce7Frame] 0 (by decide)⟩

/-! ### Claim C9: the hook intro -/

/-- C9: with non-negative timestamps, an empty final clip list yields no
hook; a non-empty one yields a hook typed `hook`, carrying the best
clip's score, centred on the highest-scored clip's midpoint with duration
exactly 3 seconds. -/
theorem c9_hook_centred_on_best (analyses : List FrameAnalysis) (g : Nat)
    (h : ∀ a ∈ analyses, 0 ≤ a.timestamp) :
    ((direct analyses g).clips = [] → (direct analyses g).hookClip = none) ∧
    (∀ c cs, (direct analyses g).clips = c :: cs →
      ∃ hk, (direct analyses g).hookClip = some hk ∧
        hk.clipType = "hook" ∧ hk.metadata.isHook = true ∧
        hk.score = (bestByScore c cs).score ∧
        bestByScore c cs ∈ (direct analyses g).clips ∧
        (∀ d ∈ (direct analyses g).clips,
          d.score.value ≤ (bestByScore c cs).score.value) ∧
        hk.start = (bestByScore c cs).timeRange.midpoint - 3/2 ∧
        hk.stop = (bestByScore c cs).timeRange.midpoint + 3/2 ∧
        hk.stop - hk.start = 3) := by
  have hclips : (direct analyses g).clips = directClips analyses g := rfl
  have hhook : (direct analyses g).hookClip
      = createHookIntro (directGen analyses g) (directClips analyses g) := rfl
  constructor
  · intro hnil
    have hdnil : directClips analyses g = [] := by
      rw [← hclips]
      exact hnil
    rw [hhook, hdnil]
    rfl
  · intro c cs hcl
    rw [hclips] at hcl
    have hfinal := directClips_seeded analyses g h
    have hbmem : bestByScore c cs ∈ directClips analyses g := by
      rw [hcl]
      exact bestByScore_mem c cs
    have hbs := hfinal _ hbmem
    have hmid : 3/2 ≤ (bestByScore c cs).timeRange.midpoint := by
      obtain ⟨h0, h3⟩ := hbs
      show 3/2 ≤ ((bestByScore c cs).timeRange.startSeconds
        + (bestByScore c cs).timeRange.endSeconds) / 2
      simp only [Clip.start, Clip.stop] at h0 h3
      linarith
    refine ⟨{ timeRange := ⟨(bestByScore c cs).timeRange.midpoint - 3/2,
              (bestByScore c cs).timeRange.midpoint + 3/2⟩,
              reason := "hook", score := (bestByScore c cs).score, clipType := "hook",
              label := "HOOK", priority := 0, actionIntensity := "low",
              id := directGen analyses g, metadata := { isHook := true } },
      ?_, rfl, rfl, rfl, by rw [hclips]; exact hbmem, ?_, rfl, rfl, by
        show ((bestByScore c cs).timeRange.midpoint + 3/2)
          - ((bestByScore c cs).timeRange.midpoint - 3/2) = 3
        ring⟩
    · rw [hhook, hcl]
      exact createHookIntro_eq _ c cs hmid
    · intro d hd
      rw [hclips, hcl] at hd
      exact bestByScore_max c cs d hd

/-- Witness for C9 at a concrete run producing one clip and a hook. -/
theorem c9_hook_centred_on_best_witness :
    (∀ a ∈ [ce7Frame], 0 ≤ a.timestamp) ∧
    (((direct [ce7Frame] 0).clips = [] → (direct [ce7Frame] 0).hookClip = none) ∧
    (∀ c cs, (direct [ce7Frame] 0).clips = c :: cs →
      ∃ hk, (direct [ce7Frame] 0).hookClip = some hk ∧
        hk.clipType = "hook" ∧ hk.metadata.isHook = true ∧
        hk.score = (bestByScore c cs).score ∧
        bestByScore c cs ∈ (direct [ce7Frame] 0).clips ∧
        (∀ d ∈ (direct [ce7Frame] 0).clips,
          d.score.value ≤ (bestByScore c cs).score.value) ∧
        hk.start = (bestByScore c cs).timeRange.midpoint - 3/2 ∧
        hk.stop = (bestByScore c cs).timeRange.midpoint + 3/2 ∧
        hk.stop - hk.start = 3)) :=
  ⟨by decide, c9_hook_centred_on_best [ce7Frame] 0 (by decide)⟩

/-! ### Claim C8: determinism of `direct`

`crypto.randomUUID()` is modelled as a supply threaded in creation order;
two invocations correspond to two supply states.  Everything except the
ids is invariant: renaming the ids commutes with every phase. -/

lemma insertionSort_mapId (f : Nat → Nat) (r : Clip → Clip → Prop) [DecidableRel r]
    (hr : ∀ a b, r a b ↔ r (mapId f a) (mapId f b)) (l : List Clip) :
    (l.map (mapId f)).insertionSort r = (l.insertionSort r).map (mapId f) :=
  (List.map_insertionSort r r (mapId f) l fun a _ b _ => hr a b).symm

lemma mergeStep_mapId (f : Nat → Nat) (a b : Clip) :
    mergeStep (mapId f a) (mapId f b) = mapId f (mergeStep a b) := by
  simp only [mergeStep, mapId, Clip.start, Clip.stop, Clip.withAdjustedRange]
  split <;> rfl

lemma mergeLoop_mapId (f : Nat → Nat) :
    ∀ (rest : List Clip) (acc : Clip),
      mergeLoop (mapId f acc) (rest.map (mapId f)) = (mergeLoop acc rest).map (mapId f)
  | [], acc => rfl
  | c :: cs, acc => by
    simp only [List.map_cons, mergeLoop]
    have hcond : (mapId f c).start ≤ (mapId f acc).stop ↔ c.start ≤ acc.stop := Iff.rfl
    by_cases hif : c.start ≤ acc.stop
    · rw [if_pos (hcond.mpr hif), if_pos hif, mergeStep_mapId, mergeLoop_mapId f cs]
    · rw [if_neg (fun hc => hif (hcond.mp hc)), if_neg hif, List.map_cons,
        mergeLoop_mapId f cs]

lemma mergeOverlappingClips_mapId (f : Nat → Nat) (l : List Clip) :
    mergeOverlappingClips (l.map (mapId f)) = (mergeOverlappingClips l).map (mapId f) := by
  unfold mergeOverlappingClips
  rw [insertionSort_mapId f startLe (fun _ _ => Iff.rfl)]
  cases l.insertionSort startLe with
  | nil => rfl
  | cons c cs =>
    simp only [List.map_cons]
    exact mergeLoop_mapId f cs c

lemma scoreClipAgainst_mapId (f : Nat → Nat) (p : CompositionPlanner)
    (analyses : List FrameAnalysis) (c : Clip) :
    scoreClipAgainst p analyses (mapId f c) = mapId f (scoreClipAgainst p analyses c) := rfl

lemma adjustClipOne_mapId (f : Nat → Nat) (p : CompositionPlanner) (c : Clip) :
    adjustClipOne p (mapId f c) = mapId f (adjustClipOne p c) := by
  simp only [adjustClipOne, mapId, Clip.duration, Clip.start, Clip.stop,
    Clip.withAdjustedRange]
  split <;> [rfl; split <;> rfl]

lemma trimLoop_mapId (f : Nat → Nat) (p : CompositionPlanner) :
    ∀ (l : List Clip) (acc : ℚ),
      trimLoop p acc (l.map (mapId f)) = (trimLoop p acc l).map (mapId f)
  | [], _ => rfl
  | c :: cs, acc => by
    simp only [List.map_cons, trimLoop]
    have hd : (mapId f c).duration = c.duration := rfl
    rw [hd]
    by_cases hfit : acc + c.duration ≤ p.targetDuration
    · rw [if_pos hfit, if_pos hfit, List.map_cons, trimLoop_mapId f p cs]
    · rw [if_neg hfit, if_neg hfit]
      by_cases hrem : p.minClipLength ≤ p.targetDuration - acc
      · rw [if_pos hrem, if_pos hrem]
        rfl
      · rw [if_neg hrem, if_neg hrem]
        rfl

lemma trimToTargetDuration_mapId (f : Nat → Nat) (p : CompositionPlanner) (l : List Clip) :
    trimToTargetDuration p (l.map (mapId f)) = (trimToTargetDuration p l).map (mapId f) := by
  unfold trimToTargetDuration
  have hdur : (l.map (mapId f)).map Clip.duration = l.map Clip.duration := by
    rw [List.map_map]
    rfl
  have hemp : (l.map (mapId f)).isEmpty = l.isEmpty := by cases l <;> rfl
  rw [hdur, hemp]
  by_cases he : l.isEmpty = true
  · rw [if_pos he, if_pos he]
  · rw [if_neg he, if_neg he]
    by_cases hsum : (l.map Clip.duration).sum ≤ p.targetDuration
    · rw [if_pos hsum, if_pos hsum]
    · rw [if_neg hsum, if_neg hsum]
      exact trimLoop_mapId f p l 0

lemma pacingLoop_mapId (f : Nat → Nat) :
    ∀ (ms hs : List Clip),
      pacingLoop (ms.map (mapId f)) (hs.map (mapId f)) = (pacingLoop ms hs).map (mapId f)
  | [], [] => by simp [pacingLoop]
  | [], h :: hs => by
    simp only [List.map_nil, List.map_cons]
    rw [show pacingLoop [] ((mapId f h) :: hs.map (mapId f))
        = mapId f h :: pacingLoop [] (hs.map (mapId f)) from by simp [pacingLoop]]
    rw [show pacingLoop [] (h :: hs) = h :: pacingLoop [] hs from by simp [pacingLoop]]
    rw [List.map_cons]
    rw [show ([] : List Clip) = ([] : List Clip).map (mapId f) from rfl]
    exact congrArg _ (pacingLoop_mapId f [] hs)
  | m :: ms, [] => by
    simp only [List.map_nil, List.map_cons]
    rw [show pacingLoop ((mapId f m) :: ms.map (mapId f)) []
        = mapId f m :: pacingLoop (ms.map (mapId f)) [] from by simp [pacingLoop]]
    rw [show pacingLoop (m :: ms) [] = m :: pacingLoop ms [] from by simp [pacingLoop]]
    rw [List.map_cons]
    exact congrArg _ (pacingLoop_mapId f ms [])
  | m :: ms, h :: hs => by
    simp only [List.map_cons]
    rw [show pacingLoop ((mapId f m) :: ms.map (mapId f)) ((mapId f h) :: hs.map (mapId f))
        = mapId f m :: mapId f h :: pacingLoop (ms.map (mapId f)) (hs.map (mapId f)) from by
      simp [pacingLoop]]
    rw [show pacingLoop (m :: ms) (h :: hs) = m :: h :: pacingLoop ms hs from by
      simp [pacingLoop]]
    rw [List.map_cons, List.map_cons]
    exact congrArg _ (congrArg _ (pacingLoop_mapId f ms hs))

lemma optimizePacing_mapId (f : Nat → Nat) (l : List Clip) :
    optimizePacing (l.map (mapId f)) = (optimizePacing l).map (mapId f) := by
  simp only [optimizePacing, List.length_map]
  by_cases hlen : l.length ≤ 2
  · rw [if_pos hlen, if_pos hlen]
  · rw [if_neg hlen, if_neg hlen]
    have hfilter : ∀ p : Clip → Bool, (∀ c, p (mapId f c) = p c) →
        (l.map (mapId f)).filter p = (l.filter p).map (mapId f) := by
      intro p hp
      rw [List.filter_map]
      exact congrArg (List.map (mapId f)) (List.filter_congr (fun c _ => hp c))
    rw [hfilter (fun c =>
        decide (c.actionIntensity = "very_high" ∨ c.actionIntensity = "high")) (fun c => rfl),
      hfilter (fun c => decide (c.actionIntensity = "medium")) (fun c => rfl),
      hfilter (fun c => decide (c.actionIntensity = "low")) (fun c => rfl)]
    rw [List.map_append]
    generalize (l.filter fun c =>
        decide (c.actionIntensity = "very_high" ∨ c.actionIntensity = "high")) = q
    cases q with
    | nil => exact congrArg₂ (· ++ ·) (pacingLoop_mapId f _ []) (List.map_take _ _ _).symm
    | cons c cs =>
      exact congrArg₂ (· ++ ·) (congrArg (mapId f c :: ·) (pacingLoop_mapId f _ cs))
        (List.map_take _ _ _).symm

lemma bestByScore_mapId (f : Nat → Nat) (c : Clip) (cs : List Clip) :
    bestByScore (mapId f c) (cs.map (mapId f)) = mapId f (bestByScore c cs) := by
  induction cs generalizing c with
  | nil => rfl
  | cons b bs ih =>
    simp only [List.map_cons]
    rw [show bestByScore (mapId f c) (mapId f b :: bs.map (mapId f))
        = bestByScore (if (mapId f b).score.value ≤ (mapId f c).score.value
            then mapId f c else mapId f b) (bs.map (mapId f)) from rfl]
    rw [show bestByScore c (b :: bs)
        = bestByScore (if b.score.value ≤ c.score.value then c else b) bs from rfl]
    have hcond : (mapId f b).score.value ≤ (mapId f c).score.value
        ↔ b.score.value ≤ c.score.value := Iff.rfl
    by_cases hbc : b.score.value ≤ c.score.value
    · rw [if_pos (hcond.mpr hbc), if_pos hbc, ih]
    · rw [if_neg (fun hc => hbc (hcond.mp hc)), if_neg hbc, ih]

lemma createHookIntro_shift (g : Nat) (i : Nat) (l : List Clip) :
    createHookIntro (i + g) (l.map (mapId (· + g)))
      = (createHookIntro i l).map (mapId (· + g)) := by
  cases l with
  | nil => rfl
  | cons c cs =>
    simp only [List.map_cons, createHookIntro, Option.map_some]
    rw [bestByScore_mapId]
    rfl

lemma calculatePacingScore_mapId (f : Nat → Nat) (p : CompositionPlanner) (l : List Clip) :
    calculatePacingScore p (l.map (mapId f)) = calculatePacingScore p l := by
  unfold calculatePacingScore
  have hemp : (l.map (mapId f)).isEmpty = l.isEmpty := by cases l <;> rfl
  have hdur : (l.map (mapId f)).map Clip.duration = l.map Clip.duration := by
    rw [List.map_map]
    rfl
  rw [hemp, hdur]

lemma analyzeEngagementCurve_congr (p : CompositionPlanner) (m m' : List Clip)
    (hs : m.map (fun d => d.score.value) = m'.map (fun d => d.score.value))
    (hd : m.map Clip.duration = m'.map Clip.duration)
    (hl : m.length = m'.length)
    (hpace : calculatePacingScore p m = calculatePacingScore p m') :
    analyzeEngagementCurve p m = analyzeEngagementCurve p m' := by
  cases m with
  | nil =>
    cases m' with
    | nil => rfl
    | cons b bs => simp at hl
  | cons a as =>
    cases m' with
    | nil => simp at hl
    | cons b bs =>
      simp only [analyzeEngagementCurve]
      rw [hs, hd, hl, hpace]

lemma analyzeEngagementCurve_mapId (f : Nat → Nat) (p : CompositionPlanner) (l : List Clip) :
    analyzeEngagementCurve p (l.map (mapId f)) = analyzeEngagementCurve p l := by
  refine analyzeEngagementCurve_congr p _ _ ?_ ?_ (List.length_map _ _)
    (calculatePacingScore_mapId f p l)
  · rw [List.map_map]
    rfl
  · rw [List.map_map]
    rfl

lemma analyzeVariety_mapId (f : Nat → Nat) (l : List Clip) :
    analyzeVariety (l.map (mapId f)) = analyzeVariety l := by
  unfold analyzeVariety
  have hemp : (l.map (mapId f)).isEmpty = l.isEmpty := by cases l <;> rfl
  rw [hemp]
  by_cases he : l.isEmpty = true
  · rw [if_pos he, if_pos he]
  · rw [if_neg he, if_neg he]
    have htypes : (l.map (mapId f)).map
          (fun c => if c.clipType = "" then "unknown" else c.clipType)
        = l.map (fun c => if c.clipType = "" then "unknown" else c.clipType) := by
      rw [List.map_map]
      rfl
    have hdur : (l.map (mapId f)).map Clip.duration = l.map Clip.duration := by
      rw [List.map_map]
      rfl
    rw [htypes, hdur]

lemma filter_mapId (f : Nat → Nat) (l : List Clip) (p : Clip → Bool)
    (hp : ∀ c, p (mapId f c) = p c) :
    (l.map (mapId f)).filter p = (l.filter p).map (mapId f) := by
  rw [List.filter_map]
  exact congrArg (List.map (mapId f)) (List.filter_congr (fun c _ => hp c))

lemma suggestImprovements_mapId (f : Nat → Nat) (l : List Clip) :
    suggestImprovements (l.map (mapId f)) = suggestImprovements l := by
  unfold suggestImprovements
  have hdur : (l.map (mapId f)).map Clip.duration = l.map Clip.duration := by
    rw [List.map_map]
    rfl
  have hf30 := filter_mapId f l (fun c => decide (c.score.value < 30)) (fun c => rfl)
  have hftype := filter_mapId f l (fun c => decide (c.clipType ≠ "")) (fun c => rfl)
  have htypemap : ((l.filter fun c => decide (c.clipType ≠ "")).map (mapId f)).map
        (fun c => c.clipType)
      = (l.filter fun c => decide (c.clipType ≠ "")).map (fun c => c.clipType) := by
    rw [List.map_map]
    rfl
  rw [hdur, List.length_map, hf30, List.length_map, hftype, htypemap]

lemma seedWith_shift (g : Nat) (f : α → Nat → Clip)
    (hf : ∀ x n, f x (n + g) = mapId (· + g) (f x n)) :
    ∀ (l : List α) (i : Nat), seedWith f (i + g) l = (seedWith f i l).map (mapId (· + g))
  | [], _ => rfl
  | x :: xs, i => by
    simp only [seedWith, List.map_cons]
    rw [hf x i]
    refine congrArg _ ?_
    rw [show i + g + 1 = (i + 1) + g from by omega]
    exact seedWith_shift g f hf xs (i + 1)

lemma seedClips_shift (g i : Nat) (analyses : List FrameAnalysis)
    (events : List MultiEvent) (clutch : List ClutchMoment) :
    seedClips (i + g) analyses events clutch
      = (seedClips i analyses events clutch).map (mapId (· + g)) := by
  unfold seedClips
  rw [List.map_append, List.map_append]
  refine congrArg₂ (· ++ ·) (congrArg₂ (· ++ ·) ?_ ?_) ?_
  · exact seedWith_shift g mkMultiClip (fun x n => rfl) events i
  · rw [show i + g + events.length = (i + events.length) + g from by omega]
    exact seedWith_shift g mkClutchClip (fun x n => rfl) clutch (i + events.length)
  · rw [show i + g + events.length + clutch.length
        = (i + events.length + clutch.length) + g from by omega]
    exact seedWith_shift g mkExciteClip (fun x n => rfl) _ (i + events.length + clutch.length)

lemma scoreClips_mapId (f : Nat → Nat) (p : CompositionPlanner)
    (analyses : List FrameAnalysis) (l : List Clip) :
    scoreClips p (l.map (mapId f)) analyses = (scoreClips p l analyses).map (mapId f) := by
  unfold scoreClips
  rw [List.map_map, List.map_map]
  exact List.map_congr_left fun c _ => scoreClipAgainst_mapId f p analyses c

lemma adjustClipLengths_mapId (f : Nat → Nat) (p : CompositionPlanner) (l : List Clip) :
    adjustClipLengths p (l.map (mapId f)) = (adjustClipLengths p l).map (mapId f) := by
  unfold adjustClipLengths
  rw [List.map_map, List.map_map]
  exact List.map_congr_left fun c _ => adjustClipOne_mapId f p c

lemma directClips_shift (analyses : List FrameAnalysis) (g : Nat) :
    directClips analyses g = (directClips analyses 0).map (mapId (· + g)) := by
  unfold directClips optimizeClips
  have hseeds : seedClips g (analyzeExcitementLevels analyses)
      (detectMultiEvents (analyzeExcitementLevels analyses) 10)
      (detectClutchMoments (analyzeExcitementLevels analyses))
      = (seedClips 0 (analyzeExcitementLevels analyses)
          (detectMultiEvents (analyzeExcitementLevels analyses) 10)
          (detectClutchMoments (analyzeExcitementLevels analyses))).map (mapId (· + g)) := by
    have hz := seedClips_shift g 0 (analyzeExcitementLevels analyses)
      (detectMultiEvents (analyzeExcitementLevels analyses) 10)
      (detectClutchMoments (analyzeExcitementLevels analyses))
    rwa [Nat.zero_add] at hz
  show optimizePacing (trimToTargetDuration defaultPlanner
    ((adjustClipLengths defaultPlanner (scoreClips defaultPlanner
      (mergeOverlappingClips ((seedClips g _ _ _).insertionSort prioGe)) _)).insertionSort
        scoreGe)) = _
  rw [hseeds, insertionSort_mapId (· + g) prioGe (fun _ _ => Iff.rfl),
    mergeOverlappingClips_mapId, scoreClips_mapId, adjustClipLengths_mapId,
    insertionSort_mapId (· + g) scoreGe (fun _ _ => Iff.rfl),
    trimToTargetDuration_mapId, optimizePacing_mapId]
  rfl

lemma directGen_shift (analyses : List FrameAnalysis) (g : Nat) :
    directGen analyses g = directGen analyses 0 + g := by
  unfold directGen suggestHighlights
  dsimp only
  omega

lemma direct_shift (analyses : List FrameAnalysis) (g : Nat) :
    direct analyses g = shiftResult g (direct analyses 0) := by
  unfold direct shiftResult
  rw [DirectorResult.mk.injEq]
  refine ⟨directClips_shift analyses g, ?_, ?_, ?_, ?_, rfl, rfl, rfl⟩
  · rw [directGen_shift, directClips_shift]
    exact createHookIntro_shift g (directGen analyses 0) (directClips analyses 0)
  · rw [directClips_shift]
    exact analyzeEngagementCurve_mapId _ _ _
  · rw [directClips_shift]
    exact analyzeVariety_mapId _ _
  · rw [directClips_shift]
    exact suggestImprovements_mapId _ _

lemma eraseIds_shiftResult (g : Nat) (r : DirectorResult) :
    eraseIds (shiftResult g r) = eraseIds r := by
  unfold eraseIds shiftResult
  rw [DirectorResult.mk.injEq]
  refine ⟨?_, ?_, rfl, rfl, rfl, rfl, rfl, rfl⟩
  · rw [List.map_map]
    exact List.map_congr_left fun c _ => rfl
  · cases r.hookClip <;> rfl

/-- The single seed clip of the run on `[ce7Frame]`. -/
lemma ce7_seeds (g : Nat) : seedClips g (analyzeExcitementLevels [ce7Frame])
    (detectMultiEvents (analyzeExcitementLevels [ce7Frame]) 10)
    (detectClutchMoments (analyzeExcitementLevels [ce7Frame]))
    = [mkClutchClip { timestamp := 0, type := "clutch", actionIntensity := "low" } g] := by
  have hexc : excitementOf ce7Frame = 20 := by
    simp only [excitementOf, ce7Frame]
    norm_num [show intensityExcitement "low" = 0 from rfl,
      show statusExcitement "clutch" = 20 from rfl]
  have henh : analyzeExcitementLevels [ce7Frame]
      = [{ ce7Frame with excitementScore := 20 }] := by
    simp [analyzeExcitementLevels, hexc]
  rw [henh]
  have hmes : detectMultiEvents [{ ce7Frame with excitementScore := 20 }] 10 = [] := by
    simp [detectMultiEvents, detectMultiLoop, ce7Frame, List.insertionSort, List.filter_cons]
  have hcms : detectClutchMoments [{ ce7Frame with excitementScore := 20 }]
      = [{ timestamp := 0, type := "clutch", actionIntensity := "low" }] := by
    simp [detectClutchMoments, ce7Frame, List.filter_cons]
  rw [hmes, hcms]
  simp only [seedClips, seedWith, List.filter_cons, List.filter_nil, decide_eq_true_eq,
    ce7Frame, List.length_nil, List.length_cons]
  norm_num [seedWith]

/-- The merged highlight list of the run on `[ce7Frame]`. -/
lemma ce7_merged (g : Nat) : (suggestHighlights g (analyzeExcitementLevels [ce7Frame])
    (detectMultiEvents (analyzeExcitementLevels [ce7Frame]) 10)
    (detectClutchMoments (analyzeExcitementLevels [ce7Frame]))).1
    = [mkClutchClip { timestamp := 0, type := "clutch", actionIntensity := "low" } g] := by
  show mergeOverlappingClips ((seedClips g (analyzeExcitementLevels [ce7Frame])
    (detectMultiEvents (analyzeExcitementLevels [ce7Frame]) 10)
    (detectClutchMoments (analyzeExcitementLevels [ce7Frame]))).insertionSort prioGe) = _
  rw [ce7_seeds g]
  simp [mergeOverlappingClips, mergeLoop, List.insertionSort, List.orderedInsert]

lemma ce7_scored (g : Nat) :
    scoreClipAgainst defaultPlanner (analyzeExcitementLevels [ce7Frame])
      (mkClutchClip { timestamp := 0, type := "clutch", actionIntensity := "low" } g)
    = ce7FinalClip g := by
  have hexc : excitementOf ce7Frame = 20 := by
    simp only [excitementOf, ce7Frame]
    norm_num [show intensityExcitement "low" = 0 from rfl,
      show statusExcitement "clutch" = 20 from rfl]
  have henh : analyzeExcitementLevels [ce7Frame]
      = [{ ce7Frame with excitementScore := 20 }] := by
    simp [analyzeExcitementLevels, hexc]
  rw [henh]
  norm_num [scoreClipAgainst, closestAnalysis, mkClutchClip, ce7FinalClip, ce7Frame,
    Clip.duration, TimeRange.duration, TimeRange.midpoint, TimeRange.make,
    QualityScore.make, defaultPlanner_max, defaultPlanner_min, max_def, min_def,
    show intensityCompositionScore "low" = 2 from rfl,
    show ("clutch" : String) ≠ "victory" by decide]

/-- Full evaluation of the `[ce7Frame]` run: one clip, id drawn from the
supply state. -/
lemma ce7_directClips (g : Nat) : directClips [ce7Frame] g = [ce7FinalClip g] := by
  show optimizePacing (trimToTargetDuration defaultPlanner
    ((adjustClipLengths defaultPlanner (scoreClips defaultPlanner
      (suggestHighlights g (analyzeExcitementLevels [ce7Frame])
        (detectMultiEvents (analyzeExcitementLevels [ce7Frame]) 10)
        (detectClutchMoments (analyzeExcitementLevels [ce7Frame]))).1
      (analyzeExcitementLevels [ce7Frame]))).insertionSort scoreGe)) = _
  rw [ce7_merged g]
  rw [show scoreClips defaultPlanner
      [mkClutchClip { timestamp := 0, type := "clutch", actionIntensity := "low" } g]
      (analyzeExcitementLevels [ce7Frame]) = [ce7FinalClip g] from by
    simp only [scoreClips, List.map_cons, List.map_nil]
    rw [ce7_scored g]]
  rw [show adjustClipLengths defaultPlanner [ce7FinalClip g] = [ce7FinalClip g] from by
    simp only [adjustClipLengths, List.map_cons, List.map_nil, adjustClipOne]
    norm_num [ce7FinalClip, Clip.duration, TimeRange.duration, defaultPlanner_max,
      defaultPlanner_min]]
  rw [show ([ce7FinalClip g] : List Clip).insertionSort scoreGe = [ce7FinalClip g] from rfl]
  rw [show trimToTargetDuration defaultPlanner [ce7FinalClip g] = [ce7FinalClip g] from by
    simp only [trimToTargetDuration]
    norm_num [ce7FinalClip, Clip.duration, TimeRange.duration, defaultPlanner_target]]
  simp [optimizePacing]

/-- C8 counterexample: the same input under two states of the ambient
`crypto.randomUUID()` supply yields different outputs — the clip ids
differ — so `direct` is not a pure function of its input alone. -/
theorem c8_counterexample_ids_differ : direct [ce7Frame] 0 ≠ direct [ce7Frame] 1 := by
  intro heq
  have hclips := congrArg DirectorResult.clips heq
  rw [show (direct [ce7Frame] 0).clips = directClips [ce7Frame] 0 from rfl,
    show (direct [ce7Frame] 1).clips = directClips [ce7Frame] 1 from rfl,
    ce7_directClips 0, ce7_directClips 1] at hclips
  simp [ce7FinalClip] at hclips

/-- C8 (amended): `direct` is deterministic in everything except the clip
ids, which come from the ambient UUID supply: erasing ids, any two supply
states yield identical outputs — the same clips in the same order (every
field but `id`), the same hook, and the same derived metrics. -/
theorem c8_amended_deterministic_up_to_ids (analyses : List FrameAnalysis) (g1 g2 : Nat) :
    eraseIds (direct analyses g1) = eraseIds (direct analyses g2) := by
  rw [direct_shift analyses g1, direct_shift analyses g2, eraseIds_shiftResult,
    eraseIds_shiftResult]

/-- Witness for C3 at the S4 inputs. -/
theorem c3_trim_to_target_duration_witness :
    0 ≤ s4Planner.targetDuration ∧
    (((trimToTargetDuration s4Planner [s4Clip6, s4Clip5, s4Clip4]).map Clip.duration).sum
        ≤ s4Planner.targetDuration ∧
     trimToTargetDuration s4Planner [s4Clip6, s4Clip5, s4Clip4] =
       [s4Clip6, s4Clip5.withAdjustedRange (TimeRange.make 10 14)] ∧
     trimToTargetDuration s4Planner [s4Clip8, s4Clip5] = [s4Clip8]) :=
  ⟨by decide, c3_trim_to_target_duration s4Planner [s4Clip6, s4Clip5, s4Clip4] (by decide)⟩

end ClipMontage

